import Mathlib

/-!
Shallow embedding of the FreeRTOS-Helper wrapper library (Bismuth208/FreeRTOS-Helper).

The embedding follows the current sources: `helpers/rtos_helper_core.hpp`
(the generic dual-context dispatcher `execIsrFunc` and `yieldFunc`),
`helpers/rtos_helper_mutex.hpp` (`OSMutex`), `rtos_helper_counter.hpp`
(`Counter`), `rtos_helper_timer.hpp` (`OSTimer`), `rtos_helper_queue.hpp`
(`OSQueue`) and `rtos_helper_task.hpp` (`OSTask`), in the C++17 build
(`__cplusplus >= 201703L`, the branch that defines `execIsrFunc`).

Modelling conventions:
* Kernel handles: a wrapper stores `handleSet : Bool` (whether the stored
  handle is non-null) together with the kernel object's model state; `init`
  takes an `allocOk : Bool` argument standing for the outcome of the kernel
  creation call (`xSemaphoreCreateMutex`, `xQueueCreate`, ...).
* `assert(...)` from `<assert.h>`: `Cfg.asserts` says whether assertions are
  compiled in (NDEBUG not defined).  An operation returns `none` in its first
  component when an enabled assertion fails (fail-fast); otherwise `some r`
  with `r` the C++ return value.  The state returned alongside is the object
  state at that point.
* `xTaskGetSchedulerState() == taskSCHEDULER_RUNNING` is `Cfg.schedRunning`.
* `xPortIsInsideInterrupt()` (the context classifier) is the `inIsr` argument.
* Every kernel API call the wrapper makes is recorded in a trace of `Event`s;
  `portYIELD_FROM_ISR(*status)` records `Event.yieldFromISR` only when the
  status is set, as the comment in `rtos_helper_core.hpp` states ("It will
  yield ONLY if it requred by status !").
* `...FromISR` kernel calls take a "higher priority task woken" oracle
  (`wake : Bool` per call): FreeRTOS sets `*pxHigherPriorityTaskWoken` to
  `pdTRUE` when the call woke a higher-priority task and never clears it, so
  the model ORs the oracle into the threaded status when the call did work.
* `pdMS_TO_TICKS` with `configTICK_RATE_HZ = 1000` is the identity.
* Time is not modelled: with no concurrent producer/consumer, a wait-capable
  call succeeds now or fails when its timeout elapses, so its result does not
  depend on the timeout value; the timeout is recorded in the trace event.
-/

namespace FreeRTOSHelper

/-- Build and environment configuration visible to the wrapper code:
whether `assert` is compiled in, and whether the scheduler is running. -/
structure Cfg where
  asserts : Bool
  schedRunning : Bool
deriving DecidableEq, Repr

/-- One kernel API call made by the wrapper, with the wait argument the
wrapper passed where the call is wait-capable (in ticks). -/
inductive Event where
  | semTake (waitTicks : Nat)
  | semTakeFromISR
  | semGive
  | semGiveFromISR
  | queueSend (waitTicks : Nat)
  | queueSendFromISR
  | queueReceive (waitTicks : Nat)
  | queueReceiveFromISR
  | queuePeek (waitTicks : Nat)
  | queuePeekFromISR
  | queueReset
  | timerChangePeriod (waitTicks : Nat)
  | timerChangePeriodFromISR
  | timerStart (waitTicks : Nat)
  | timerStartFromISR
  | timerStop (waitTicks : Nat)
  | timerStopFromISR
  | timerReset (waitTicks : Nat)
  | timerResetFromISR
  | taskSuspend
  | taskResume
  | taskResumeFromISR
  | taskNotifyGive
  | taskNotifyGiveFromISR
  | taskNotifyTake (waitTicks : Nat)
  | yieldFromISR
deriving DecidableEq, Repr

/-- Whether the event is a call of the ISR-safe family (a `...FromISR`
kernel call, or the deferred reschedule request itself). -/
def Event.isIsrVariant : Event → Bool
  | semTakeFromISR => true
  | semGiveFromISR => true
  | queueSendFromISR => true
  | queueReceiveFromISR => true
  | queuePeekFromISR => true
  | timerChangePeriodFromISR => true
  | timerStartFromISR => true
  | timerStopFromISR => true
  | timerResetFromISR => true
  | taskResumeFromISR => true
  | taskNotifyGiveFromISR => true
  | yieldFromISR => true
  | _ => false

/-- The timeout passed to a wait-capable kernel call, `none` for calls that
cannot block (all `...FromISR` variants and the non-waiting task calls). -/
def Event.waitCapableTimeout : Event → Option Nat
  | semTake t => some t
  | queueSend t => some t
  | queueReceive t => some t
  | queuePeek t => some t
  | timerChangePeriod t => some t
  | timerStart t => some t
  | timerStop t => some t
  | timerReset t => some t
  | taskNotifyTake t => some t
  | _ => none

/-- Number of reschedule requests (`portYIELD_FROM_ISR`) in a trace. -/
def yieldCount (tr : List Event) : Nat :=
  tr.count Event.yieldFromISR

/-- `pdMS_TO_TICKS` at `configTICK_RATE_HZ = 1000`: one tick per millisecond. -/
def pdMS_TO_TICKS (ms : Nat) : Nat := ms

/-- `portMAX_DELAY` for a 32-bit `TickType_t`. -/
def portMAX_DELAY : Nat := 4294967295

/-- `portMAX_DELAY_MS` = `portMAX_DELAY * portTICK_PERIOD_MS` with a 1 ms tick. -/
def portMAX_DELAY_MS : Nat := portMAX_DELAY

/-- `yieldFunc` from `rtos_helper_core.hpp`: performs `portYIELD_FROM_ISR(*status)`,
which requests a reschedule only when the status is set. -/
def yieldFunc (status : Bool) : List Event :=
  if status then [Event.yieldFromISR] else []

/-- `execIsrFunc` from `rtos_helper_core.hpp`: run `a` when not inside an
interrupt, otherwise run `b` with a fresh `xHigherPriorityStatus = pdFALSE`.
`b` receives the initial status and threads it itself (the C++ lambda gets the
status pointer and `yieldFunc`); its final status is consumed inside `b`. -/
def execIsrFunc {σ α : Type} (inIsr : Bool)
    (a : σ → α × σ × List Event)
    (b : Bool → σ → α × σ × List Event) (s : σ) : α × σ × List Event :=
  if inIsr = false then a s else b false s

/-! ## Kernel object models -/

/-- A FreeRTOS counting semaphore: current count and maximum count. -/
structure SemK where
  count : Nat
  maxCount : Nat
deriving DecidableEq, Repr

/-- `xSemaphoreTake` on a counting semaphore in a closed system: succeeds
immediately when a count is available, otherwise fails once the timeout
elapses (no concurrent `give` can arrive). -/
def SemK.takeK (k : SemK) : Bool × SemK :=
  if k.count = 0 then (false, k) else (true, { k with count := k.count - 1 })

/-- `xSemaphoreGive`: succeeds iff the count is below the maximum. -/
def SemK.giveK (k : SemK) : Bool × SemK :=
  if k.count < k.maxCount then (true, { k with count := k.count + 1 }) else (false, k)

/-- `xSemaphoreTakeFromISR`: like `takeK`; when it takes a count it may report
a woken higher-priority task (`wake` oracle), ORed into the threaded status. -/
def SemK.takeFromISR (wake status : Bool) (k : SemK) : Bool × SemK × Bool :=
  if k.count = 0 then (false, k, status)
  else (true, { k with count := k.count - 1 }, status || wake)

/-- `xSemaphoreGiveFromISR`: like `giveK`, with the woken-task oracle. -/
def SemK.giveFromISR (wake status : Bool) (k : SemK) : Bool × SemK × Bool :=
  if k.count < k.maxCount then (true, { k with count := k.count + 1 }, status || wake)
  else (false, k, status)

/-- A FreeRTOS mutex (created available by `xSemaphoreCreateMutex`). -/
structure MutexK where
  locked : Bool
deriving DecidableEq, Repr

/-- `xSemaphoreTake` on a mutex: non-recursive, so a second take fails after
its timeout (nobody else can release it in the closed system). -/
def MutexK.takeK (k : MutexK) : Bool × MutexK :=
  if k.locked then (false, k) else (true, { locked := true })

/-- `xSemaphoreGive` on a mutex: fails when the mutex is not held. -/
def MutexK.giveK (k : MutexK) : Bool × MutexK :=
  if k.locked then (true, { locked := false }) else (false, k)

/-- A FreeRTOS queue: capacity (in items) and current contents, oldest first. -/
structure QueueK (T : Type) where
  cap : Nat
  items : List T
deriving DecidableEq, Repr

/-- `xQueueSend` (send to back): succeeds iff there is space. -/
def QueueK.sendK {T : Type} (v : T) (q : QueueK T) : Bool × QueueK T :=
  if q.items.length < q.cap then (true, { q with items := q.items ++ [v] })
  else (false, q)

/-- `xQueueSendFromISR`, with the woken-task oracle. -/
def QueueK.sendFromISR {T : Type} (wake status : Bool) (v : T) (q : QueueK T) :
    Bool × QueueK T × Bool :=
  if q.items.length < q.cap then
    (true, { q with items := q.items ++ [v] }, status || wake)
  else (false, q, status)

/-- `xQueueReceive`: pops the oldest item into caller storage. -/
def QueueK.receiveK {T : Type} (q : QueueK T) : Option T × QueueK T :=
  match q.items with
  | [] => (none, q)
  | v :: rest => (some v, { q with items := rest })

/-- `xQueueReceiveFromISR`, with the woken-task oracle. -/
def QueueK.receiveFromISR {T : Type} (wake status : Bool) (q : QueueK T) :
    Option T × QueueK T × Bool :=
  match q.items with
  | [] => (none, q, status)
  | v :: rest => (some v, { q with items := rest }, status || wake)

/-- `xQueuePeek`: copies the oldest item without removing it. -/
def QueueK.peekK {T : Type} (q : QueueK T) : Option T × QueueK T :=
  (q.items.head?, q)

/-- `xQueueReset`: discards everything; always returns `pdPASS`. -/
def QueueK.resetK {T : Type} (q : QueueK T) : Bool × QueueK T :=
  (true, { q with items := [] })

/-- A FreeRTOS software timer: whether it is running and its period. -/
structure TimerK where
  active : Bool
  periodTicks : Nat
deriving DecidableEq, Repr

/-- `xTimerChangePeriod`: sets the new period and (re)starts the timer. -/
def TimerK.changePeriodK (p : Nat) (_k : TimerK) : Bool × TimerK :=
  (true, { active := true, periodTicks := p })

/-- `xTimerChangePeriodFromISR`, with the woken-task oracle. -/
def TimerK.changePeriodFromISR (wake status : Bool) (p : Nat) (_k : TimerK) :
    Bool × TimerK × Bool :=
  (true, { active := true, periodTicks := p }, status || wake)

/-- `xTimerStart`. -/
def TimerK.startK (k : TimerK) : Bool × TimerK :=
  (true, { k with active := true })

/-- `xTimerStartFromISR`, with the woken-task oracle. -/
def TimerK.startFromISR (wake status : Bool) (k : TimerK) : Bool × TimerK × Bool :=
  (true, { k with active := true }, status || wake)

/-- `xTimerStop`. -/
def TimerK.stopK (k : TimerK) : Bool × TimerK :=
  (true, { k with active := false })

/-- `xTimerStopFromISR`, with the woken-task oracle. -/
def TimerK.stopFromISR (wake status : Bool) (k : TimerK) : Bool × TimerK × Bool :=
  (true, { k with active := false }, status || wake)

/-- `xTimerReset`: restarts the timer with its current period. -/
def TimerK.resetK (k : TimerK) : Bool × TimerK :=
  (true, { k with active := true })

/-- `xTimerResetFromISR`, with the woken-task oracle. -/
def TimerK.resetFromISR (wake status : Bool) (k : TimerK) : Bool × TimerK × Bool :=
  (true, { k with active := true }, status || wake)

/-! ## OSMutex (`helpers/rtos_helper_mutex.hpp`) -/

/-- The `OSMutex` wrapper: handle, the kernel mutex behind it (meaningful
once `handleSet`), and the `m_initialized` flag. -/
structure OSMutex where
  handleSet : Bool
  mtx : MutexK
  m_initialized : Bool
deriving DecidableEq, Repr

/-- A default-constructed `OSMutex` (all members at their initializers). -/
def OSMutex.fresh : OSMutex :=
  { handleSet := false, mtx := { locked := false }, m_initialized := false }

/-- `OSMutex::init()`.  `allocOk` is the outcome of `xSemaphoreCreateMutex`.
Note the return statement of the source: `return (m_MutexHandler == nullptr);`. -/
def OSMutex.init (cfg : Cfg) (allocOk : Bool) (s : OSMutex) : Option Bool × OSMutex :=
  let s1 : OSMutex :=
    { s with handleSet := allocOk,
             mtx := if allocOk then { locked := false } else s.mtx }
  if cfg.asserts && !s1.handleSet then (none, s1)
  else
    let s2 := if s1.handleSet then { s1 with m_initialized := true } else s1
    (some (!s1.handleSet), s2)

/-- `OSMutex::lock(xMsToWait)`.  The source performs no interrupt-context
dispatch and no interrupt-context assertion: after the three assertions
(handle, `m_initialized`, scheduler running) and the `!m_initialized` early
return it calls the blocking `xSemaphoreTake` unconditionally, so `inIsr`
is never consulted. -/
def OSMutex.lock (cfg : Cfg) (inIsr : Bool) (xMsToWait : Nat) (s : OSMutex) :
    Option Bool × OSMutex × List Event :=
  if cfg.asserts && !s.handleSet then (none, s, [])
  else if cfg.asserts && !s.m_initialized then (none, s, [])
  else if cfg.asserts && !cfg.schedRunning then (none, s, [])
  else if !s.m_initialized then (some false, s, [])
  else
    let (res, k) := s.mtx.takeK
    (some res, { s with mtx := k }, [Event.semTake (pdMS_TO_TICKS xMsToWait)])

/-- `OSMutex::unlock()`. -/
def OSMutex.unlock (cfg : Cfg) (s : OSMutex) : Option Bool × OSMutex × List Event :=
  if cfg.asserts && !s.handleSet then (none, s, [])
  else if cfg.asserts && !s.m_initialized then (none, s, [])
  else if cfg.asserts && !cfg.schedRunning then (none, s, [])
  else if !s.m_initialized then (some false, s, [])
  else
    let (res, k) := s.mtx.giveK
    (some res, { s with mtx := k }, [Event.semGive])

/-! ## Counter (`rtos_helper_counter.hpp`) -/

/-- The `Counter<MaxCount>` wrapper. -/
structure Counter where
  m_MaxCount : Nat
  handleSet : Bool
  sem : SemK
  m_initialized : Bool
deriving DecidableEq, Repr

/-- A default-constructed `Counter<maxCount>`. -/
def Counter.fresh (maxCount : Nat) : Counter :=
  { m_MaxCount := maxCount, handleSet := false,
    sem := { count := 0, maxCount := 0 }, m_initialized := false }

/-- `Counter::init()`.  `allocOk` is the outcome of `xSemaphoreCreateCounting`
(initial count 0, maximum `m_MaxCount`); the source returns `m_initialized`. -/
def Counter.init (cfg : Cfg) (allocOk : Bool) (s : Counter) : Option Bool × Counter :=
  if cfg.asserts && (s.m_MaxCount == 0) then (none, s)
  else
    let s1 : Counter :=
      { s with handleSet := allocOk,
               sem := if allocOk then { count := 0, maxCount := s.m_MaxCount } else s.sem }
    if cfg.asserts && !s1.handleSet then (none, s1)
    else
      let s2 := if s1.handleSet then { s1 with m_initialized := true } else s1
      (some s2.m_initialized, s2)

/-- `Counter::take(xMsToWait)` (C++17 path, dispatched through `execIsrFunc`). -/
def Counter.take (cfg : Cfg) (inIsr wake : Bool) (xMsToWait : Nat) (s : Counter) :
    Option Bool × Counter × List Event :=
  if cfg.asserts && !s.handleSet then (none, s, [])
  else if cfg.asserts && !s.m_initialized then (none, s, [])
  else if cfg.asserts && !cfg.schedRunning then (none, s, [])
  else if !s.m_initialized then (some false, s, [])
  else
    let (res, k, tr) := execIsrFunc inIsr
      (fun k =>
        let (b, k1) := k.takeK
        (b, k1, [Event.semTake (pdMS_TO_TICKS xMsToWait)]))
      (fun st k =>
        let (b, k1, st1) := k.takeFromISR wake st
        (b, k1, Event.semTakeFromISR :: yieldFunc st1))
      s.sem
    (some res, { s with sem := k }, tr)

/-- `Counter::give()` (C++17 path, dispatched through `execIsrFunc`). -/
def Counter.give (cfg : Cfg) (inIsr wake : Bool) (s : Counter) :
    Option Bool × Counter × List Event :=
  if cfg.asserts && !s.handleSet then (none, s, [])
  else if cfg.asserts && !s.m_initialized then (none, s, [])
  else if cfg.asserts && !cfg.schedRunning then (none, s, [])
  else if !s.m_initialized then (some false, s, [])
  else
    let (res, k, tr) := execIsrFunc inIsr
      (fun k =>
        let (b, k1) := k.giveK
        (b, k1, [Event.semGive]))
      (fun st k =>
        let (b, k1, st1) := k.giveFromISR wake st
        (b, k1, Event.semGiveFromISR :: yieldFunc st1))
      s.sem
    (some res, { s with sem := k }, tr)

/-- The task-context drain loop of `Counter::reset()`:
`while (xSemaphoreTake(m_xCounter, 0u)) ;`.  Fuel-indexed so it is structural;
returns `(final kernel state, loop body iterations, trace)`, `none` when the
fuel ran out before the loop exited. -/
def drainLoopTask (fuel : Nat) (k : SemK) : Option (SemK × Nat × List Event) :=
  match fuel with
  | 0 => none
  | f + 1 =>
    match k.takeK with
    | (false, k1) => some (k1, 0, [Event.semTake 0])
    | (true, k1) =>
      match drainLoopTask f k1 with
      | none => none
      | some (k2, n, tr) => some (k2, n + 1, Event.semTake 0 :: tr)

/-- The interrupt-context drain loop of `Counter::reset()`:
`while (xSemaphoreTakeFromISR(m_xCounter, status)) ;` with the status threaded
through every call; `wakes i` is the woken-task oracle of the `i`-th call.
Returns `(final kernel state, final status, iterations, trace)`. -/
def drainLoopISR (wakes : Nat → Bool) (i : Nat) (status : Bool) (fuel : Nat) (k : SemK) :
    Option (SemK × Bool × Nat × List Event) :=
  match fuel with
  | 0 => none
  | f + 1 =>
    match k.takeFromISR (wakes i) status with
    | (false, k1, st1) => some (k1, st1, 0, [Event.semTakeFromISR])
    | (true, k1, st1) =>
      match drainLoopISR wakes (i + 1) st1 f k1 with
      | none => none
      | some (k2, st2, n, tr) => some (k2, st2, n + 1, Event.semTakeFromISR :: tr)

/-- `Counter::reset()` (C++17 path): both branches drain the semaphore one
take at a time and return `pdTRUE`; the ISR branch then calls `yieldFunc` on
the accumulated status.  The drain loops get fuel `count + 1`, which is shown
sufficient below; the `none` fallbacks are unreachable. -/
def Counter.reset (cfg : Cfg) (inIsr : Bool) (wakes : Nat → Bool) (s : Counter) :
    Option Bool × Counter × List Event :=
  if cfg.asserts && !s.handleSet then (none, s, [])
  else if cfg.asserts && !s.m_initialized then (none, s, [])
  else if cfg.asserts && !cfg.schedRunning then (none, s, [])
  else if !s.m_initialized then (some false, s, [])
  else
    let (res, k, tr) := execIsrFunc inIsr
      (fun k =>
        match drainLoopTask (k.count + 1) k with
        | some (k1, _, tr) => (true, k1, tr)
        | none => (true, k, []))
      (fun st k =>
        match drainLoopISR wakes 0 st (k.count + 1) k with
        | some (k1, st1, _, tr) => (true, k1, tr ++ yieldFunc st1)
        | none => (true, k, []))
      s.sem
    (some res, { s with sem := k }, tr)

/-! ## OSQueue (`rtos_helper_queue.hpp`) -/

/-- The `OSQueue<QueueSize, T>` wrapper. -/
structure OSQueue (T : Type) where
  m_xQueueSize : Nat
  handleSet : Bool
  q : QueueK T
  m_initialized : Bool
deriving DecidableEq, Repr

/-- A default-constructed `OSQueue<queueSize, T>` (the constructor sets
`m_xQueueSize = QueueSize`). -/
def OSQueue.fresh (T : Type) (queueSize : Nat) : OSQueue T :=
  { m_xQueueSize := queueSize, handleSet := false,
    q := { cap := 0, items := [] }, m_initialized := false }

/-- `OSQueue::init()`.  `allocOk` is the outcome of `xQueueCreate`; the source
returns `m_initialized`. -/
def OSQueue.init {T : Type} (cfg : Cfg) (allocOk : Bool) (s : OSQueue T) :
    Option Bool × OSQueue T :=
  if cfg.asserts && (s.m_xQueueSize == 0) then (none, s)
  else
    let s1 : OSQueue T :=
      { s with handleSet := allocOk,
               q := if allocOk then { cap := s.m_xQueueSize, items := [] } else s.q }
    if cfg.asserts && !s1.handleSet then (none, s1)
    else
      let s2 := if s1.handleSet then { s1 with m_initialized := true } else s1
      (some s2.m_initialized, s2)

/-- `OSQueue::setSize(newSize)`. -/
def OSQueue.setSize {T : Type} (cfg : Cfg) (newSize : Nat) (s : OSQueue T) :
    Option Bool × OSQueue T :=
  if cfg.asserts && s.handleSet then (none, s)
  else if cfg.asserts && s.m_initialized then (none, s)
  else if cfg.asserts && (newSize == 0) then (none, s)
  else if s.m_initialized then (some false, s)
  else (some true, { s with m_xQueueSize := newSize })

/-- `OSQueue::_send(val, xMsToWait)` (C++17 path); both public `send`
overloads delegate here. -/
def OSQueue.send {T : Type} (cfg : Cfg) (inIsr wake : Bool) (v : T) (xMsToWait : Nat)
    (s : OSQueue T) : Option Bool × OSQueue T × List Event :=
  if cfg.asserts && !s.handleSet then (none, s, [])
  else if cfg.asserts && !s.m_initialized then (none, s, [])
  else if cfg.asserts && !cfg.schedRunning then (none, s, [])
  else if !s.m_initialized then (some false, s, [])
  else
    let (res, k, tr) := execIsrFunc inIsr
      (fun q =>
        let (b, q1) := q.sendK v
        (b, q1, [Event.queueSend (pdMS_TO_TICKS xMsToWait)]))
      (fun st q =>
        let (b, q1, st1) := q.sendFromISR wake st v
        (b, q1, Event.queueSendFromISR :: yieldFunc st1))
      s.q
    (some res, { s with q := k }, tr)

/-- `OSQueue::_receive(val, xMsToWait)` (C++17 path); both public `receive`
overloads delegate here.  The second result component is the item written to
the caller's storage (`none` when nothing was received). -/
def OSQueue.receive {T : Type} (cfg : Cfg) (inIsr wake : Bool) (xMsToWait : Nat)
    (s : OSQueue T) : Option (Bool × Option T) × OSQueue T × List Event :=
  if cfg.asserts && !s.handleSet then (none, s, [])
  else if cfg.asserts && !s.m_initialized then (none, s, [])
  else if cfg.asserts && !cfg.schedRunning then (none, s, [])
  else if !s.m_initialized then (some (false, none), s, [])
  else
    let (res, k, tr) := execIsrFunc inIsr
      (fun q =>
        let (v, q1) := q.receiveK
        ((v.isSome, v), q1, [Event.queueReceive (pdMS_TO_TICKS xMsToWait)]))
      (fun st q =>
        let (v, q1, st1) := q.receiveFromISR wake st
        ((v.isSome, v), q1, Event.queueReceiveFromISR :: yieldFunc st1))
      s.q
    (some res, { s with q := k }, tr)

/-- `OSQueue::_peek(val, xMsToWait)` (C++17 path); both public `peek`
overloads delegate here.  `xQueuePeekFromISR` takes no status pointer, so the
ISR branch never requests a reschedule. -/
def OSQueue.peek {T : Type} (cfg : Cfg) (inIsr : Bool) (xMsToWait : Nat)
    (s : OSQueue T) : Option (Bool × Option T) × OSQueue T × List Event :=
  if cfg.asserts && !s.handleSet then (none, s, [])
  else if cfg.asserts && !s.m_initialized then (none, s, [])
  else if cfg.asserts && !cfg.schedRunning then (none, s, [])
  else if !s.m_initialized then (some (false, none), s, [])
  else
    let (res, k, tr) := execIsrFunc inIsr
      (fun q =>
        let (v, q1) := q.peekK
        ((v.isSome, v), q1, [Event.queuePeek (pdMS_TO_TICKS xMsToWait)]))
      (fun _st q =>
        let (v, q1) := q.peekK
        ((v.isSome, v), q1, [Event.queuePeekFromISR]))
      s.q
    (some res, { s with q := k }, tr)

/-- `OSQueue::fflush()`: `xQueueReset` on the queue. -/
def OSQueue.fflush {T : Type} (cfg : Cfg) (s : OSQueue T) :
    Option Bool × OSQueue T × List Event :=
  if cfg.asserts && !s.handleSet then (none, s, [])
  else if cfg.asserts && !s.m_initialized then (none, s, [])
  else if cfg.asserts && !cfg.schedRunning then (none, s, [])
  else if !s.m_initialized then (some false, s, [])
  else
    let (res, k) := s.q.resetK
    (some res, { s with q := k }, [Event.queueReset])

/-! ## OSTimer (`rtos_helper_timer.hpp`) -/

/-- The `OSTimer` wrapper.  Function pointers and `void*` values are opaque
identifiers; `none` is a null pointer. -/
structure OSTimer where
  m_TimerFuncPtr : Option Nat
  m_TimerName : Option String
  m_uxAutoReload : Bool
  m_pvTimerID : Option Nat
  handleSet : Bool
  tmr : TimerK
  m_initialized : Bool
deriving DecidableEq, Repr

/-- An `OSTimer` as its constructor builds it. -/
def OSTimer.fresh (callback : Option Nat) (timerName : Option String)
    (autoReload : Bool) (timerID : Option Nat) : OSTimer :=
  { m_TimerFuncPtr := callback, m_TimerName := timerName,
    m_uxAutoReload := autoReload, m_pvTimerID := timerID,
    handleSet := false, tmr := { active := false, periodTicks := 1 },
    m_initialized := false }

/-- `OSTimer::init()`.  `allocOk` is the outcome of `xTimerCreate` (period 1
tick, dormant); the source returns `m_initialized`. -/
def OSTimer.init (cfg : Cfg) (allocOk : Bool) (s : OSTimer) : Option Bool × OSTimer :=
  if cfg.asserts && s.m_TimerName.isNone then (none, s)
  else if cfg.asserts && s.m_TimerFuncPtr.isNone then (none, s)
  else
    let s1 : OSTimer :=
      { s with handleSet := allocOk,
               tmr := if allocOk then { active := false, periodTicks := 1 } else s.tmr }
    if cfg.asserts && !s1.handleSet then (none, s1)
    else
      let s2 := if s1.handleSet then { s1 with m_initialized := true } else s1
      (some s2.m_initialized, s2)

/-- `OSTimer::setName(newName)`. -/
def OSTimer.setName (cfg : Cfg) (newName : Option String) (s : OSTimer) :
    Option Bool × OSTimer :=
  if cfg.asserts && s.m_initialized then (none, s)
  else if cfg.asserts && newName.isNone then (none, s)
  else if s.m_initialized then (some false, s)
  else (some true, { s with m_TimerName := newName })

/-- `OSTimer::start(xPeriodInMs)` (C++17 path): the task branch performs
`xTimerChangePeriod(h, ticks, 0)` then `xTimerStart(h, 0)`; the ISR branch
performs both `FromISR` variants against a single status, then one
`yieldFunc(status)`. -/
def OSTimer.start (cfg : Cfg) (inIsr wake1 wake2 : Bool) (xPeriodInMs : Nat)
    (s : OSTimer) : Option Bool × OSTimer × List Event :=
  if cfg.asserts && !s.handleSet then (none, s, [])
  else if cfg.asserts && !s.m_initialized then (none, s, [])
  else if cfg.asserts && !cfg.schedRunning then (none, s, [])
  else if !s.m_initialized then (some false, s, [])
  else
    let (res, k, tr) := execIsrFunc inIsr
      (fun t =>
        let (_, t1) := t.changePeriodK (pdMS_TO_TICKS xPeriodInMs)
        let (b, t2) := t1.startK
        (b, t2, [Event.timerChangePeriod 0, Event.timerStart 0]))
      (fun st t =>
        let (_, t1, st1) := t.changePeriodFromISR wake1 st (pdMS_TO_TICKS xPeriodInMs)
        let (b, t2, st2) := t1.startFromISR wake2 st1
        (b, t2, Event.timerChangePeriodFromISR :: Event.timerStartFromISR ::
          yieldFunc st2))
      s.tmr
    (some res, { s with tmr := k }, tr)

/-- `OSTimer::stop()` (C++17 path). -/
def OSTimer.stop (cfg : Cfg) (inIsr wake : Bool) (s : OSTimer) :
    Option Bool × OSTimer × List Event :=
  if cfg.asserts && !s.handleSet then (none, s, [])
  else if cfg.asserts && !s.m_initialized then (none, s, [])
  else if cfg.asserts && !cfg.schedRunning then (none, s, [])
  else if !s.m_initialized then (some false, s, [])
  else
    let (res, k, tr) := execIsrFunc inIsr
      (fun t =>
        let (b, t1) := t.stopK
        (b, t1, [Event.timerStop 0]))
      (fun st t =>
        let (b, t1, st1) := t.stopFromISR wake st
        (b, t1, Event.timerStopFromISR :: yieldFunc st1))
      s.tmr
    (some res, { s with tmr := k }, tr)

/-- `OSTimer::restart(xPeriodInMs)` (C++17 path).  Note the task branch passes
`pdMS_TO_TICKS(xPeriodInMs)` as the *wait time* of `xTimerReset`, exactly as
the source does. -/
def OSTimer.restart (cfg : Cfg) (inIsr wake : Bool) (xPeriodInMs : Nat)
    (s : OSTimer) : Option Bool × OSTimer × List Event :=
  if cfg.asserts && !s.handleSet then (none, s, [])
  else if cfg.asserts && !s.m_initialized then (none, s, [])
  else if cfg.asserts && !cfg.schedRunning then (none, s, [])
  else if !s.m_initialized then (some false, s, [])
  else
    let (res, k, tr) := execIsrFunc inIsr
      (fun t =>
        let (b, t1) := t.resetK
        (b, t1, [Event.timerReset (pdMS_TO_TICKS xPeriodInMs)]))
      (fun st t =>
        let (b, t1, st1) := t.resetFromISR wake st
        (b, t1, Event.timerResetFromISR :: yieldFunc st1))
      s.tmr
    (some res, { s with tmr := k }, tr)

/-! ## OSTask (`rtos_helper_task.hpp`) -/

/-- The `OSTask<TStackSize>` wrapper.  Function pointers and `void*` values
are opaque identifiers; `none` is a null pointer.  `m_ePinnedCore` follows
`os_mcu_core_num_t` on a multi-core build: 0, 1, or 2 (`OS_MCU_CORE_NONE`).
`suspended` and `notifValue` are the kernel-side task state the wrapper's
operations act on. -/
structure OSTask where
  m_TaskFuncPtr : Option Nat
  m_TaskName : Option String
  m_TaskArgument : Option Nat
  m_TaskPriority : Nat
  m_ePinnedCore : Nat
  handleSet : Bool
  m_TaskStackSize : Nat
  m_xLastWakeTime : Nat
  suspended : Bool
  notifValue : Nat
  m_initialized : Bool
deriving DecidableEq, Repr

/-- An `OSTask<stackSize>` as its constructor builds it. -/
def OSTask.fresh (funcPtr : Option Nat) (taskName : Option String)
    (taskArgument : Option Nat) (taskPriority : Nat) (pinnedCore : Nat)
    (stackSize : Nat) : OSTask :=
  { m_TaskFuncPtr := funcPtr, m_TaskName := taskName,
    m_TaskArgument := taskArgument, m_TaskPriority := taskPriority,
    m_ePinnedCore := pinnedCore, handleSet := false,
    m_TaskStackSize := stackSize, m_xLastWakeTime := 0,
    suspended := false, notifValue := 0, m_initialized := false }

/-- `OSTask::init()`.  `allocOk` is the outcome of the task-creation call
(the pinned / unpinned variants differ only in placement); the source
returns `m_initialized`. -/
def OSTask.init (cfg : Cfg) (allocOk : Bool) (s : OSTask) : Option Bool × OSTask :=
  if cfg.asserts && s.m_TaskName.isNone then (none, s)
  else if cfg.asserts && s.m_TaskFuncPtr.isNone then (none, s)
  else if cfg.asserts && (s.m_TaskStackSize == 0) then (none, s)
  else
    let s1 : OSTask := { s with handleSet := allocOk }
    if cfg.asserts && !s1.handleSet then (none, s1)
    else
      let s2 := if s1.handleSet then { s1 with m_initialized := true } else s1
      (some s2.m_initialized, s2)

/-- `OSTask::setName(newName)`. -/
def OSTask.setName (cfg : Cfg) (newName : Option String) (s : OSTask) :
    Option Bool × OSTask :=
  if cfg.asserts && s.m_initialized then (none, s)
  else if cfg.asserts && newName.isNone then (none, s)
  else if s.m_initialized then (some false, s)
  else (some true, { s with m_TaskName := newName })

/-- `OSTask::setFunction(newTaskFuncPtr)`. -/
def OSTask.setFunction (cfg : Cfg) (newTaskFuncPtr : Option Nat) (s : OSTask) :
    Option Bool × OSTask :=
  if cfg.asserts && s.m_initialized then (none, s)
  else if cfg.asserts && newTaskFuncPtr.isNone then (none, s)
  else if s.m_initialized then (some false, s)
  else (some true, { s with m_TaskFuncPtr := newTaskFuncPtr })

/-- `OSTask::setArg(newTaskArgument)`. -/
def OSTask.setArg (cfg : Cfg) (newTaskArgument : Option Nat) (s : OSTask) :
    Option Bool × OSTask :=
  if cfg.asserts && s.m_initialized then (none, s)
  else if cfg.asserts && newTaskArgument.isNone then (none, s)
  else if s.m_initialized then (some false, s)
  else (some true, { s with m_TaskArgument := newTaskArgument })

/-- `OSTask::stop()`: `vTaskSuspend` on the task's own handle. -/
def OSTask.stop (cfg : Cfg) (s : OSTask) : Option Bool × OSTask × List Event :=
  if cfg.asserts && !s.handleSet then (none, s, [])
  else if cfg.asserts && !s.m_initialized then (none, s, [])
  else if cfg.asserts && !cfg.schedRunning then (none, s, [])
  else if !s.m_initialized then (some false, s, [])
  else (some true, { s with suspended := true }, [Event.taskSuspend])

/-- `OSTask::start()` (C++17 path): `vTaskResume`, or from an interrupt
`*status = xTaskResumeFromISR(handle)` (the status is *overwritten* with the
call's yield-required result) followed by `yieldFunc(status)`; both branches
return `true`. -/
def OSTask.start (cfg : Cfg) (inIsr wake : Bool) (s : OSTask) :
    Option Bool × OSTask × List Event :=
  if cfg.asserts && !s.handleSet then (none, s, [])
  else if cfg.asserts && !s.m_initialized then (none, s, [])
  else if cfg.asserts && !cfg.schedRunning then (none, s, [])
  else if !s.m_initialized then (some false, s, [])
  else
    let (res, k, tr) := execIsrFunc inIsr
      (fun (susp : Bool) =>
        let _ := susp
        (true, false, [Event.taskResume]))
      (fun _st (susp : Bool) =>
        let _ := susp
        (true, false, Event.taskResumeFromISR :: yieldFunc wake))
      s.suspended
    (some res, { s with suspended := k }, tr)

/-- `OSTask::emitSignal()` (C++17 path): `xTaskNotifyGive` (always `pdPASS`),
or from an interrupt `vTaskNotifyGiveFromISR(handle, status)` then
`yieldFunc(status)`; both branches return `true`. -/
def OSTask.emitSignal (cfg : Cfg) (inIsr wake : Bool) (s : OSTask) :
    Option Bool × OSTask × List Event :=
  if cfg.asserts && !s.handleSet then (none, s, [])
  else if cfg.asserts && !s.m_initialized then (none, s, [])
  else if cfg.asserts && !cfg.schedRunning then (none, s, [])
  else if !s.m_initialized then (some false, s, [])
  else
    let (res, k, tr) := execIsrFunc inIsr
      (fun (n : Nat) => (true, n + 1, [Event.taskNotifyGive]))
      (fun st (n : Nat) =>
        (true, n + 1, Event.taskNotifyGiveFromISR :: yieldFunc (st || wake)))
      s.notifValue
    (some res, { s with notifValue := k }, tr)

/-- The retry loop of `OSTask::waitSignal`:
`do { portNOP(); } while (ulTaskNotifyTake(pdTRUE, pdMS_TO_TICKS(xMsToWait)) == pdFALSE);`.
`signalAt i` says whether a notification is pending when the `i`-th
`ulTaskNotifyTake` call completes (a signal sent by another task or interrupt
during that bounded wait, or already pending).  Fuel-indexed: `some n` means
the loop exited after `n` calls to `ulTaskNotifyTake`, `none` that it was
still looping when the fuel ran out. -/
def waitSignalLoop (signalAt : Nat → Bool) (i fuel : Nat) : Option Nat :=
  match fuel with
  | 0 => none
  | f + 1 => if signalAt i then some (i + 1) else waitSignalLoop signalAt (i + 1) f

/-- `OSTask::waitSignal(xMsToWait)`.  `currentIsSelf` models
`m_TaskHandle == xTaskGetCurrentTaskHandle()`.  The outer `none` is an
assertion failure; otherwise `some (waitSignalLoop ...)`.  The wait argument
only bounds each single `ulTaskNotifyTake` call, not the loop. -/
def OSTask.waitSignal (cfg : Cfg) (currentIsSelf : Bool) (signalAt : Nat → Bool)
    (fuel : Nat) (xMsToWait : Nat) (s : OSTask) : Option (Option Nat) :=
  let _ := xMsToWait
  let _ := s
  if cfg.asserts && !cfg.schedRunning then none
  else if cfg.asserts && !currentIsSelf then none
  else some (waitSignalLoop signalAt 0 fuel)

/-! ## Concrete fixtures used by witnesses and counterexamples -/

/-- A build with assertions compiled in, scheduler running. -/
def cfgA : Cfg := { asserts := true, schedRunning := true }

/-- An NDEBUG build (assertions compiled out), scheduler running. -/
def cfgN : Cfg := { asserts := false, schedRunning := true }

/-- An initialized `OSMutex` (as after a successful `init()`), unlocked. -/
def mutexReady : OSMutex :=
  { handleSet := true, mtx := { locked := false }, m_initialized := true }

/-- An initialized `Counter<max>` holding `c` counts. -/
def counterReady (c max : Nat) : Counter :=
  { m_MaxCount := max, handleSet := true,
    sem := { count := c, maxCount := max }, m_initialized := true }

/-- An initialized `OSQueue<cap, Nat>` holding `items`. -/
def queueReady (cap : Nat) (items : List Nat) : OSQueue Nat :=
  { m_xQueueSize := cap, handleSet := true,
    q := { cap := cap, items := items }, m_initialized := true }

/-- An initialized `OSTimer`, dormant. -/
def timerReady : OSTimer :=
  { m_TimerFuncPtr := some 1, m_TimerName := some "t", m_uxAutoReload := false,
    m_pvTimerID := none, handleSet := true,
    tmr := { active := false, periodTicks := 1 }, m_initialized := true }

/-- An initialized `OSTask`. -/
def taskReady : OSTask :=
  { m_TaskFuncPtr := some 1, m_TaskName := some "main", m_TaskArgument := none,
    m_TaskPriority := 0, m_ePinnedCore := 2, handleSet := true,
    m_TaskStackSize := 2048, m_xLastWakeTime := 0,
    suspended := false, notifValue := 0, m_initialized := true }

/-! ## Trace predicates and iteration helpers -/

/-- Every kernel call in the trace is from the ISR-safe family. -/
def IsrOnly (tr : List Event) : Prop := ∀ e ∈ tr, e.isIsrVariant = true

/-- Every kernel call in the trace is from the task-context family. -/
def TaskOnly (tr : List Event) : Prop := ∀ e ∈ tr, e.isIsrVariant = false

/-- No wait-capable kernel call with a nonzero timeout occurs in the trace. -/
def NoBlockingWait (tr : List Event) : Prop :=
  ∀ e ∈ tr, ∀ w, e.waitCapableTimeout = some w → w = 0

/-- Whether any of the `c` woken-task oracles starting at index `i` fires:
the value `Counter::reset`'s ISR drain loop accumulates into its status. -/
def anyWake (wakes : Nat → Bool) (i : Nat) : Nat → Bool
  | 0 => false
  | c + 1 => wakes i || anyWake wakes (i + 1) c

/-- A sequence of task-context `send` calls, one per element of `vals`,
collecting the results (used to state the queue fill scenario). -/
def sendSeq {T : Type} (cfg : Cfg) (xMsToWait : Nat) (vals : List T) (s : OSQueue T) :
    List (Option Bool) × OSQueue T :=
  match vals with
  | [] => ([], s)
  | v :: vs =>
    let (r, s1, _) := OSQueue.send cfg false false v xMsToWait s
    let (rs, s2) := sendSeq cfg xMsToWait vs s1
    (r :: rs, s2)


/-! ## Supporting lemmas -/

theorem Event.isrVariant_no_wait (e : Event) (h : e.isIsrVariant = true) :
    e.waitCapableTimeout = none := by
  cases e <;> simp_all [Event.isIsrVariant, Event.waitCapableTimeout]

theorem yieldCount_yieldFunc (st : Bool) : yieldCount (yieldFunc st) = if st then 1 else 0 := by
  cases st <;> rfl

theorem yieldCount_cons (e : Event) (he : e ≠ Event.yieldFromISR) (tr : List Event) :
    yieldCount (e :: tr) = yieldCount tr := by
  simp [yieldCount, List.count_cons, he]

theorem yieldCount_append (l1 l2 : List Event) :
    yieldCount (l1 ++ l2) = yieldCount l1 + yieldCount l2 := by
  simp [yieldCount, List.count_append]

theorem yieldCount_replicate (n : Nat) (e : Event) (he : e ≠ Event.yieldFromISR) :
    yieldCount (List.replicate n e) = 0 := by
  simp [yieldCount, List.count_replicate, he]

theorem IsrOnly_cons (e : Event) (he : e.isIsrVariant = true) (tr : List Event)
    (h : IsrOnly tr) : IsrOnly (e :: tr) := by
  intro x hx
  rcases List.mem_cons.mp hx with h1 | h1
  · exact h1 ▸ he
  · exact h x h1

theorem IsrOnly_nil : IsrOnly [] := by intro x hx; cases hx

theorem IsrOnly_yieldFunc (st : Bool) : IsrOnly (yieldFunc st) := by
  cases st <;> · intro x hx; simp [yieldFunc] at hx; try simp [hx, Event.isIsrVariant]

theorem IsrOnly_append (l1 l2 : List Event) (h1 : IsrOnly l1) (h2 : IsrOnly l2) :
    IsrOnly (l1 ++ l2) := by
  intro x hx
  rcases List.mem_append.mp hx with h | h
  · exact h1 x h
  · exact h2 x h

theorem IsrOnly_replicate (n : Nat) (e : Event) (he : e.isIsrVariant = true) :
    IsrOnly (List.replicate n e) := by
  intro x hx
  rw [List.eq_of_mem_replicate hx]
  exact he

theorem IsrOnly.noBlockingWait (tr : List Event) (h : IsrOnly tr) : NoBlockingWait tr := by
  intro e he w hw
  rw [Event.isrVariant_no_wait e (h e he)] at hw
  cases hw

theorem TaskOnly_singleton (e : Event) (he : e.isIsrVariant = false) : TaskOnly [e] := by
  intro x hx
  rw [List.mem_singleton.mp hx]
  exact he

theorem TaskOnly_replicate (n : Nat) (e : Event) (he : e.isIsrVariant = false) :
    TaskOnly (List.replicate n e) := by
  intro x hx
  rw [List.eq_of_mem_replicate hx]
  exact he

theorem drainLoopTask_succ (f : Nat) (k : SemK) :
    drainLoopTask (f + 1) k =
      match k.takeK with
      | (false, k1) => some (k1, 0, [Event.semTake 0])
      | (true, k1) =>
        match drainLoopTask f k1 with
        | none => none
        | some (k2, n, tr) => some (k2, n + 1, Event.semTake 0 :: tr) := rfl

theorem drainLoopTask_run :
    ∀ c m f : Nat, c < f → drainLoopTask f { count := c, maxCount := m } =
      some ({ count := 0, maxCount := m }, c, List.replicate (c + 1) (Event.semTake 0)) := by
  intro c
  induction c with
  | zero =>
    intro m f hf
    match f, hf with
    | g + 1, _ => simp [drainLoopTask_succ, SemK.takeK]
  | succ n ih =>
    intro m f hf
    match f, hf with
    | g + 1, hf =>
      have h1 : SemK.takeK { count := n + 1, maxCount := m } =
          (true, { count := n, maxCount := m }) := by simp [SemK.takeK]
      have hrec := ih m g (Nat.lt_of_succ_lt_succ hf)
      simp [drainLoopTask_succ, h1, hrec, List.replicate]

theorem drainLoopISR_succ (wakes : Nat → Bool) (i : Nat) (st : Bool) (f : Nat) (k : SemK) :
    drainLoopISR wakes i st (f + 1) k =
      match k.takeFromISR (wakes i) st with
      | (false, k1, st1) => some (k1, st1, 0, [Event.semTakeFromISR])
      | (true, k1, st1) =>
        match drainLoopISR wakes (i + 1) st1 f k1 with
        | none => none
        | some (k2, st2, n, tr) => some (k2, st2, n + 1, Event.semTakeFromISR :: tr) := rfl

theorem drainLoopISR_run (wakes : Nat → Bool) :
    ∀ c m i f : Nat, ∀ st : Bool, c < f →
      drainLoopISR wakes i st f { count := c, maxCount := m } =
        some ({ count := 0, maxCount := m }, st || anyWake wakes i c, c,
              List.replicate (c + 1) Event.semTakeFromISR) := by
  intro c
  induction c with
  | zero =>
    intro m i f st hf
    match f, hf with
    | g + 1, _ => simp [drainLoopISR_succ, SemK.takeFromISR, anyWake]
  | succ n ih =>
    intro m i f st hf
    match f, hf with
    | g + 1, hf =>
      have h1 : SemK.takeFromISR (wakes i) st { count := n + 1, maxCount := m } =
          (true, { count := n, maxCount := m }, st || wakes i) := by simp [SemK.takeFromISR]
      have hrec := ih m (i + 1) g (st || wakes i) (Nat.lt_of_succ_lt_succ hf)
      simp [drainLoopISR_succ, h1, hrec, anyWake, List.replicate, Bool.or_assoc]

theorem waitSignalLoop_succ (signalAt : Nat → Bool) (i f : Nat) :
    waitSignalLoop signalAt i (f + 1) =
      if signalAt i then some (i + 1) else waitSignalLoop signalAt (i + 1) f := rfl

theorem waitSignalLoop_no_signal (signalAt : Nat → Bool) (h : ∀ i, signalAt i = false) :
    ∀ fuel i : Nat, waitSignalLoop signalAt i fuel = none := by
  intro fuel
  induction fuel with
  | zero => intro i; rfl
  | succ f ih => intro i; simp [waitSignalLoop_succ, h i, ih]

theorem waitSignalLoop_first_signal (signalAt : Nat → Bool) :
    ∀ fuel k i : Nat, (∀ j, j < k → signalAt (i + j) = false) → signalAt (i + k) = true →
      k < fuel → waitSignalLoop signalAt i fuel = some (i + k + 1) := by
  intro fuel
  induction fuel with
  | zero => intro k i _ _ hk; cases hk
  | succ f ih =>
    intro k i hbefore hk hlt
    match k with
    | 0 =>
      have h0 : signalAt i = true := by simpa using hk
      simp [waitSignalLoop_succ, h0]
    | m + 1 =>
      have h0 : signalAt i = false := by simpa using hbefore 0 (Nat.succ_pos m)
      have hb : ∀ j, j < m → signalAt (i + 1 + j) = false := by
        intro j hj
        have h := hbefore (j + 1) (Nat.succ_lt_succ hj)
        have e : i + (j + 1) = i + 1 + j := by omega
        rwa [e] at h
      have hk1 : signalAt (i + 1 + m) = true := by
        have e : i + (m + 1) = i + 1 + m := by omega
        rwa [e] at hk
      have hrec := ih m (i + 1) hb hk1 (Nat.lt_of_succ_lt_succ hlt)
      rw [waitSignalLoop_succ, if_neg (by simp [h0]), hrec]
      exact congrArg some (by omega)

theorem drainLoopTask_run_eta (k : SemK) (f : Nat) (hf : k.count < f) :
    drainLoopTask f k =
      some ({ count := 0, maxCount := k.maxCount }, k.count,
            List.replicate (k.count + 1) (Event.semTake 0)) :=
  drainLoopTask_run k.count k.maxCount f hf

theorem drainLoopISR_run_eta (wakes : Nat → Bool) (k : SemK) (i f : Nat) (st : Bool)
    (hf : k.count < f) :
    drainLoopISR wakes i st f k =
      some ({ count := 0, maxCount := k.maxCount }, st || anyWake wakes i k.count, k.count,
            List.replicate (k.count + 1) Event.semTakeFromISR) :=
  drainLoopISR_run wakes k.count k.maxCount i f st hf

/-! ### Per-operation trace characterizations (interrupt context) -/

theorem counterTake_isr_trace (cfg : Cfg) (wake : Bool) (t : Nat) (s : Counter)
    (h1 : s.handleSet = true) (h2 : s.m_initialized = true) (hs : cfg.schedRunning = true) :
    (Counter.take cfg true wake t s).2.2 =
      Event.semTakeFromISR :: yieldFunc (!(s.sem.count == 0) && wake) := by
  by_cases h0 : s.sem.count = 0
  · simp [Counter.take, h1, h2, hs, execIsrFunc, SemK.takeFromISR, h0]
  · have hb : (s.sem.count == 0) = false := by
      simpa using h0
    simp [Counter.take, h1, h2, hs, execIsrFunc, SemK.takeFromISR, h0, hb]

theorem counterGive_isr_trace (cfg : Cfg) (wake : Bool) (s : Counter)
    (h1 : s.handleSet = true) (h2 : s.m_initialized = true) (hs : cfg.schedRunning = true) :
    (Counter.give cfg true wake s).2.2 =
      Event.semGiveFromISR :: yieldFunc (decide (s.sem.count < s.sem.maxCount) && wake) := by
  by_cases h0 : s.sem.count < s.sem.maxCount <;>
    simp [Counter.give, h1, h2, hs, execIsrFunc, SemK.giveFromISR, h0]

theorem counterReset_isr_trace (cfg : Cfg) (wakes : Nat → Bool) (s : Counter)
    (h1 : s.handleSet = true) (h2 : s.m_initialized = true) (hs : cfg.schedRunning = true) :
    (Counter.reset cfg true wakes s).2.2 =
      List.replicate (s.sem.count + 1) Event.semTakeFromISR ++
        yieldFunc (anyWake wakes 0 s.sem.count) := by
  have hrun := drainLoopISR_run_eta wakes s.sem 0 (s.sem.count + 1) false (Nat.lt_succ_self _)
  simp [Counter.reset, h1, h2, hs, execIsrFunc, hrun]

theorem queueSend_isr_trace {T : Type} (cfg : Cfg) (wake : Bool) (v : T) (t : Nat)
    (s : OSQueue T) (h1 : s.handleSet = true) (h2 : s.m_initialized = true)
    (hs : cfg.schedRunning = true) :
    (OSQueue.send cfg true wake v t s).2.2 =
      Event.queueSendFromISR ::
        yieldFunc (decide (s.q.items.length < s.q.cap) && wake) := by
  by_cases h0 : s.q.items.length < s.q.cap <;>
    simp [OSQueue.send, h1, h2, hs, execIsrFunc, QueueK.sendFromISR, h0]

theorem queueReceive_isr_trace {T : Type} (cfg : Cfg) (wake : Bool) (t : Nat)
    (s : OSQueue T) (h1 : s.handleSet = true) (h2 : s.m_initialized = true)
    (hs : cfg.schedRunning = true) :
    (OSQueue.receive cfg true wake t s).2.2 =
      Event.queueReceiveFromISR :: yieldFunc (!s.q.items.isEmpty && wake) := by
  rcases hq : s.q.items with _ | ⟨x, rest⟩ <;>
    simp [OSQueue.receive, h1, h2, hs, execIsrFunc, QueueK.receiveFromISR, hq]

theorem queuePeek_isr_trace {T : Type} (cfg : Cfg) (t : Nat)
    (s : OSQueue T) (h1 : s.handleSet = true) (h2 : s.m_initialized = true)
    (hs : cfg.schedRunning = true) :
    (OSQueue.peek cfg true t s).2.2 = [Event.queuePeekFromISR] := by
  simp [OSQueue.peek, h1, h2, hs, execIsrFunc, QueueK.peekK]

theorem timerStart_isr_trace (cfg : Cfg) (wake1 wake2 : Bool) (ms : Nat) (s : OSTimer)
    (h1 : s.handleSet = true) (h2 : s.m_initialized = true) (hs : cfg.schedRunning = true) :
    (OSTimer.start cfg true wake1 wake2 ms s).2.2 =
      Event.timerChangePeriodFromISR :: Event.timerStartFromISR ::
        yieldFunc (wake1 || wake2) := by
  simp [OSTimer.start, h1, h2, hs, execIsrFunc, TimerK.changePeriodFromISR,
    TimerK.startFromISR]

theorem timerStop_isr_trace (cfg : Cfg) (wake : Bool) (s : OSTimer)
    (h1 : s.handleSet = true) (h2 : s.m_initialized = true) (hs : cfg.schedRunning = true) :
    (OSTimer.stop cfg true wake s).2.2 = Event.timerStopFromISR :: yieldFunc wake := by
  simp [OSTimer.stop, h1, h2, hs, execIsrFunc, TimerK.stopFromISR]

theorem timerRestart_isr_trace (cfg : Cfg) (wake : Bool) (ms : Nat) (s : OSTimer)
    (h1 : s.handleSet = true) (h2 : s.m_initialized = true) (hs : cfg.schedRunning = true) :
    (OSTimer.restart cfg true wake ms s).2.2 =
      Event.timerResetFromISR :: yieldFunc wake := by
  simp [OSTimer.restart, h1, h2, hs, execIsrFunc, TimerK.resetFromISR]

theorem taskStart_isr_trace (cfg : Cfg) (wake : Bool) (s : OSTask)
    (h1 : s.handleSet = true) (h2 : s.m_initialized = true) (hs : cfg.schedRunning = true) :
    (OSTask.start cfg true wake s).2.2 = Event.taskResumeFromISR :: yieldFunc wake := by
  simp [OSTask.start, h1, h2, hs, execIsrFunc]

theorem taskEmitSignal_isr_trace (cfg : Cfg) (wake : Bool) (s : OSTask)
    (h1 : s.handleSet = true) (h2 : s.m_initialized = true) (hs : cfg.schedRunning = true) :
    (OSTask.emitSignal cfg true wake s).2.2 =
      Event.taskNotifyGiveFromISR :: yieldFunc wake := by
  simp [OSTask.emitSignal, h1, h2, hs, execIsrFunc]

/-! ### Per-operation trace characterizations (task context) -/

theorem counterTake_task_trace (cfg : Cfg) (wake : Bool) (t : Nat) (s : Counter)
    (h1 : s.handleSet = true) (h2 : s.m_initialized = true) (hs : cfg.schedRunning = true) :
    (Counter.take cfg false wake t s).2.2 = [Event.semTake (pdMS_TO_TICKS t)] := by
  simp [Counter.take, h1, h2, hs, execIsrFunc]

theorem counterGive_task_trace (cfg : Cfg) (wake : Bool) (s : Counter)
    (h1 : s.handleSet = true) (h2 : s.m_initialized = true) (hs : cfg.schedRunning = true) :
    (Counter.give cfg false wake s).2.2 = [Event.semGive] := by
  simp [Counter.give, h1, h2, hs, execIsrFunc]

theorem counterReset_task_run (cfg : Cfg) (wakes : Nat → Bool) (s : Counter)
    (h1 : s.handleSet = true) (h2 : s.m_initialized = true) (hs : cfg.schedRunning = true) :
    Counter.reset cfg false wakes s =
      (some true, { s with sem := { count := 0, maxCount := s.sem.maxCount } },
       List.replicate (s.sem.count + 1) (Event.semTake 0)) := by
  have hrun := drainLoopTask_run_eta s.sem (s.sem.count + 1) (Nat.lt_succ_self _)
  simp [Counter.reset, h1, h2, hs, execIsrFunc, hrun]

theorem queueSend_task_run {T : Type} (cfg : Cfg) (wake : Bool) (v : T) (t : Nat)
    (s : OSQueue T) (h1 : s.handleSet = true) (h2 : s.m_initialized = true)
    (hs : cfg.schedRunning = true) :
    OSQueue.send cfg false wake v t s =
      (some (s.q.sendK v).1, { s with q := (s.q.sendK v).2 },
       [Event.queueSend (pdMS_TO_TICKS t)]) := by
  simp [OSQueue.send, h1, h2, hs, execIsrFunc]

theorem queueReceive_task_run {T : Type} (cfg : Cfg) (wake : Bool) (t : Nat)
    (s : OSQueue T) (h1 : s.handleSet = true) (h2 : s.m_initialized = true)
    (hs : cfg.schedRunning = true) :
    OSQueue.receive cfg false wake t s =
      (some ((s.q.receiveK).1.isSome, (s.q.receiveK).1), { s with q := (s.q.receiveK).2 },
       [Event.queueReceive (pdMS_TO_TICKS t)]) := by
  simp [OSQueue.receive, h1, h2, hs, execIsrFunc]

theorem queuePeek_task_trace {T : Type} (cfg : Cfg) (t : Nat)
    (s : OSQueue T) (h1 : s.handleSet = true) (h2 : s.m_initialized = true)
    (hs : cfg.schedRunning = true) :
    (OSQueue.peek cfg false t s).2.2 = [Event.queuePeek (pdMS_TO_TICKS t)] := by
  simp [OSQueue.peek, h1, h2, hs, execIsrFunc]

theorem timerStart_task_trace (cfg : Cfg) (wake1 wake2 : Bool) (ms : Nat) (s : OSTimer)
    (h1 : s.handleSet = true) (h2 : s.m_initialized = true) (hs : cfg.schedRunning = true) :
    (OSTimer.start cfg false wake1 wake2 ms s).2.2 =
      [Event.timerChangePeriod 0, Event.timerStart 0] := by
  simp [OSTimer.start, h1, h2, hs, execIsrFunc]

theorem timerStop_task_trace (cfg : Cfg) (wake : Bool) (s : OSTimer)
    (h1 : s.handleSet = true) (h2 : s.m_initialized = true) (hs : cfg.schedRunning = true) :
    (OSTimer.stop cfg false wake s).2.2 = [Event.timerStop 0] := by
  simp [OSTimer.stop, h1, h2, hs, execIsrFunc]

theorem timerRestart_task_trace (cfg : Cfg) (wake : Bool) (ms : Nat) (s : OSTimer)
    (h1 : s.handleSet = true) (h2 : s.m_initialized = true) (hs : cfg.schedRunning = true) :
    (OSTimer.restart cfg false wake ms s).2.2 = [Event.timerReset (pdMS_TO_TICKS ms)] := by
  simp [OSTimer.restart, h1, h2, hs, execIsrFunc]

theorem taskStart_task_trace (cfg : Cfg) (wake : Bool) (s : OSTask)
    (h1 : s.handleSet = true) (h2 : s.m_initialized = true) (hs : cfg.schedRunning = true) :
    (OSTask.start cfg false wake s).2.2 = [Event.taskResume] := by
  simp [OSTask.start, h1, h2, hs, execIsrFunc]

theorem taskEmitSignal_task_trace (cfg : Cfg) (wake : Bool) (s : OSTask)
    (h1 : s.handleSet = true) (h2 : s.m_initialized = true) (hs : cfg.schedRunning = true) :
    (OSTask.emitSignal cfg false wake s).2.2 = [Event.taskNotifyGive] := by
  simp [OSTask.emitSignal, h1, h2, hs, execIsrFunc]

theorem isNone_false_of_isSome {α : Type} (o : Option α) (h : o.isSome = true) :
    o.isNone = false := by
  cases o
  · cases h
  · rfl

theorem yieldCount_ev_yieldFunc (e : Event) (he : e ≠ Event.yieldFromISR) (st : Bool) :
    yieldCount (e :: yieldFunc st) = if st then 1 else 0 := by
  rw [yieldCount_cons e he, yieldCount_yieldFunc]

theorem TaskOnly_nil : TaskOnly [] := by intro x hx; cases hx

theorem TaskOnly_cons (e : Event) (he : e.isIsrVariant = false) (tr : List Event)
    (h : TaskOnly tr) : TaskOnly (e :: tr) := by
  intro x hx
  rcases List.mem_cons.mp hx with h1 | h1
  · exact h1 ▸ he
  · exact h x h1

/-! ## Claims -/

/-- C1: the claim says every primitive's `init()` returns `true` iff creation
succeeded.  `Counter`, `OSQueue`, `OSTimer` and `OSTask` do (they return
`m_initialized`), but `OSMutex::init` returns `m_MutexHandler == nullptr`:
`false` on a successful creation and `true` on an allocation failure, the
inverse of its own doc comment ("true if successful") — a code bug. -/
theorem c1_mutex_init_polarity_inverted :
    (OSMutex.init cfgA true OSMutex.fresh).1 = some false ∧
    (OSMutex.init cfgA true OSMutex.fresh).2.m_initialized = true ∧
    (OSMutex.init cfgA true OSMutex.fresh).2.handleSet = true ∧
    (OSMutex.init cfgN false OSMutex.fresh).1 = some true ∧
    (OSMutex.init cfgN false OSMutex.fresh).2.m_initialized = false ∧
    (Counter.init cfgA true (Counter.fresh 3)).1 = some true ∧
    (Counter.init cfgN false (Counter.fresh 3)).1 = some false ∧
    (OSQueue.init cfgA true (OSQueue.fresh Nat 4)).1 = some true ∧
    (OSQueue.init cfgN false (OSQueue.fresh Nat 4)).1 = some false ∧
    (OSTimer.init cfgA true (OSTimer.fresh (some 1) (some "t") false none)).1 = some true ∧
    (OSTimer.init cfgN false (OSTimer.fresh (some 1) (some "t") false none)).1 = some false ∧
    (OSTask.init cfgA true (OSTask.fresh (some 1) (some "m") none 0 2 2048)).1 = some true ∧
    (OSTask.init cfgN false (OSTask.fresh (some 1) (some "m") none 0 2 2048)).1 = some false :=
  ⟨rfl, rfl, rfl, rfl, rfl, rfl, rfl, rfl, rfl, rfl, rfl, rfl, rfl⟩

/-- C4 counterexample: with assertions enabled and the scheduler running, an
initialized mutex locked *from interrupt context* does not fail fast: no
assertion fires (the result is `some`, not `none`) and the blocking,
wait-capable `xSemaphoreTake` with a nonzero timeout is executed. -/
theorem c4_lock_in_isr_not_asserted :
    (OSMutex.lock cfgA true 100 mutexReady).1 = some true ∧
    (OSMutex.lock cfgA true 100 mutexReady).2.2 = [Event.semTake 100] ∧
    (Event.semTake 100).isIsrVariant = false ∧
    (Event.semTake 100).waitCapableTimeout = some 100 :=
  ⟨rfl, rfl, rfl, rfl⟩

/-- C4 (amended): `OSMutex::lock` contains no interrupt-context check at all —
its behaviour is identical in interrupt and task context, and on an
initialized mutex it always executes the blocking `xSemaphoreTake`; avoiding
interrupt context is only a documented caller obligation. -/
theorem c4_lock_ignores_isr_context (cfg : Cfg) (inIsr : Bool) (t : Nat) (s : OSMutex)
    (h1 : s.handleSet = true) (h2 : s.m_initialized = true) (hs : cfg.schedRunning = true) :
    OSMutex.lock cfg inIsr t s = OSMutex.lock cfg false t s ∧
    (OSMutex.lock cfg inIsr t s).1 = some (s.mtx.takeK).1 ∧
    (OSMutex.lock cfg inIsr t s).2.2 = [Event.semTake (pdMS_TO_TICKS t)] := by
  refine ⟨rfl, ?_, ?_⟩ <;> simp [OSMutex.lock, h1, h2, hs]

/-- C4 witness: the amended theorem at a concrete input. -/
theorem c4_lock_ignores_isr_context_witness :
    (OSMutex.lock cfgA true 5 mutexReady).1 = some true ∧
    (OSMutex.lock cfgA true 5 mutexReady).2.2 = [Event.semTake 5] :=
  ⟨(c4_lock_ignores_isr_context cfgA true 5 mutexReady rfl rfl rfl).2.1,
   (c4_lock_ignores_isr_context cfgA true 5 mutexReady rfl rfl rfl).2.2⟩

set_option maxRecDepth 4096 in
/-- C7 counterexample: `waitSignal` with the finite wait time 5 ms and no
`emitSignal` ever arriving is still looping after 1000 bounded waits — it
does not return once the caller-supplied wait time elapses. -/
theorem c7_waitsignal_not_bounded :
    OSTask.waitSignal cfgA true (fun _ => false) 1000 5 taskReady = some none := rfl

/-- C7 (amended): `waitSignal` retries the bounded `ulTaskNotifyTake` in a
do-while loop until a notification arrives: with no signal it never returns
(for every fuel bound it is still looping), and when the first signal arrives
during the `k`-th wait it returns after exactly `k + 1` notify-take calls.
`xMsToWait` bounds each individual kernel wait, not the whole call. -/
theorem c7_waitsignal_loops_until_signal (cfg : Cfg) (self : Bool) (signalAt : Nat → Bool)
    (fuel t k : Nat) (s : OSTask) (hs : cfg.schedRunning = true) (hself : self = true) :
    ((∀ i, signalAt i = false) → OSTask.waitSignal cfg self signalAt fuel t s = some none) ∧
    ((∀ j, j < k → signalAt j = false) → signalAt k = true → k < fuel →
      OSTask.waitSignal cfg self signalAt fuel t s = some (some (k + 1))) := by
  constructor
  · intro hnone
    simp [OSTask.waitSignal, hs, hself, waitSignalLoop_no_signal signalAt hnone fuel 0]
  · intro hb hk hlt
    have hrun := waitSignalLoop_first_signal signalAt fuel k 0
      (by simpa using hb) (by simpa using hk) hlt
    simp [OSTask.waitSignal, hs, hself, hrun]

/-- C7 witness: the amended theorem at concrete inputs — the signal first
pending at the third wait unblocks after three notify-take calls, and with no
signal the loop is still running when the fuel runs out. -/
theorem c7_waitsignal_loops_witness :
    OSTask.waitSignal cfgA true (fun i => i == 2) 50 5 taskReady = some (some 3) ∧
    OSTask.waitSignal cfgA true (fun _ => false) 50 5 taskReady = some none := by
  have h1 := c7_waitsignal_loops_until_signal cfgA true (fun i => i == 2) 50 5 2 taskReady
    rfl rfl
  have h2 := c7_waitsignal_loops_until_signal cfgA true (fun _ => false) 50 5 0 taskReady
    rfl rfl
  exact ⟨h1.2 (by intro j hj; interval_cases j <;> rfl) rfl (by omega), h2.1 (fun i => rfl)⟩

/-- C5: after a successful `init()` (`m_initialized = true`), every
configuration mutator — `OSTask::setName/setFunction/setArg`,
`OSQueue::setSize`, `OSTimer::setName` — leaves the object completely
unchanged, and in a build with assertions compiled out it returns `false`
(with assertions compiled in it fail-fasts on `assert(m_initialized == false)`,
likewise without mutating anything). -/
theorem c5_setters_after_init_reject
    (cfg : Cfg) (nm nm2 : Option String) (fp arg : Option Nat) (nsz : Nat)
    (sk : OSTask) (hk : sk.m_initialized = true)
    (sq : OSQueue Nat) (hq : sq.m_initialized = true)
    (sm : OSTimer) (hm : sm.m_initialized = true) :
    (OSTask.setName cfg nm sk).2 = sk ∧
    (OSTask.setFunction cfg fp sk).2 = sk ∧
    (OSTask.setArg cfg arg sk).2 = sk ∧
    (OSQueue.setSize cfg nsz sq).2 = sq ∧
    (OSTimer.setName cfg nm2 sm).2 = sm ∧
    (cfg.asserts = false →
      (OSTask.setName cfg nm sk).1 = some false ∧
      (OSTask.setFunction cfg fp sk).1 = some false ∧
      (OSTask.setArg cfg arg sk).1 = some false ∧
      (OSQueue.setSize cfg nsz sq).1 = some false ∧
      (OSTimer.setName cfg nm2 sm).1 = some false) := by
  by_cases ha : cfg.asserts <;> by_cases hh : sq.handleSet <;>
    simp [OSTask.setName, OSTask.setFunction, OSTask.setArg, OSQueue.setSize,
      OSTimer.setName, hk, hq, hm, ha, hh]

/-- C5 witness: the theorem at concrete initialized objects. -/
theorem c5_setters_after_init_reject_witness :
    (OSTask.setName cfgN (some "other") taskReady).2 = taskReady ∧
    (OSTask.setName cfgN (some "other") taskReady).1 = some false ∧
    (OSQueue.setSize cfgN 9 (queueReady 2 [])).1 = some false := by
  have h := c5_setters_after_init_reject cfgN (some "other") (some "x") (some 3) (some 4) 9
    taskReady rfl (queueReady 2 []) rfl timerReady rfl
  exact ⟨h.1, (h.2.2.2.2.2 rfl).1, (h.2.2.2.2.2 rfl).2.2.2.1⟩

/-- C9: when `init()` fails because the kernel creation call returns null
(`allocOk = false`), every primitive keeps a null handle and a false
`m_initialized` flag — it stays `Unconfigured` (in an assertions-enabled
build the `assert(handle)` fail-fasts, likewise leaving the flags false) —
and a retried `init()` whose allocation succeeds then initializes. -/
theorem c9_failed_init_stays_unconfigured
    (cfg : Cfg)
    (sm : OSMutex) (hmx : sm.m_initialized = false)
    (sc : Counter) (hc0 : sc.m_MaxCount ≠ 0) (hc : sc.m_initialized = false)
    (sq : OSQueue Nat) (hq0 : sq.m_xQueueSize ≠ 0) (hq : sq.m_initialized = false)
    (stm : OSTimer) (ht0 : stm.m_TimerName.isSome = true)
    (ht1 : stm.m_TimerFuncPtr.isSome = true) (ht : stm.m_initialized = false)
    (sk : OSTask) (hk0 : sk.m_TaskName.isSome = true)
    (hk1 : sk.m_TaskFuncPtr.isSome = true) (hk2 : sk.m_TaskStackSize ≠ 0)
    (hk : sk.m_initialized = false) :
    ((OSMutex.init cfg false sm).2.handleSet = false ∧
      (OSMutex.init cfg false sm).2.m_initialized = false) ∧
    ((Counter.init cfg false sc).2.handleSet = false ∧
      (Counter.init cfg false sc).2.m_initialized = false) ∧
    ((OSQueue.init cfg false sq).2.handleSet = false ∧
      (OSQueue.init cfg false sq).2.m_initialized = false) ∧
    ((OSTimer.init cfg false stm).2.handleSet = false ∧
      (OSTimer.init cfg false stm).2.m_initialized = false) ∧
    ((OSTask.init cfg false sk).2.handleSet = false ∧
      (OSTask.init cfg false sk).2.m_initialized = false) ∧
    (OSMutex.init cfg true ((OSMutex.init cfg false sm).2)).2.m_initialized = true ∧
    (Counter.init cfg true ((Counter.init cfg false sc).2)).2.m_initialized = true ∧
    (OSQueue.init cfg true ((OSQueue.init cfg false sq).2)).2.m_initialized = true ∧
    (OSTimer.init cfg true ((OSTimer.init cfg false stm).2)).2.m_initialized = true ∧
    (OSTask.init cfg true ((OSTask.init cfg false sk).2)).2.m_initialized = true := by
  have hcb : (sc.m_MaxCount == 0) = false := by simpa using hc0
  have hqb : (sq.m_xQueueSize == 0) = false := by simpa using hq0
  have hkb : (sk.m_TaskStackSize == 0) = false := by simpa using hk2
  have htn := isNone_false_of_isSome stm.m_TimerName ht0
  have htf := isNone_false_of_isSome stm.m_TimerFuncPtr ht1
  have hkn := isNone_false_of_isSome sk.m_TaskName hk0
  have hkf := isNone_false_of_isSome sk.m_TaskFuncPtr hk1
  by_cases ha : cfg.asserts <;>
    simp [OSMutex.init, Counter.init, OSQueue.init, OSTimer.init, OSTask.init,
      hmx, hc, hq, ht, hk, hcb, hqb, hkb, htn, htf, hkn, hkf, ha]

/-- C9 witness: the theorem at concrete unconfigured objects. -/
theorem c9_failed_init_stays_unconfigured_witness :
    ((OSMutex.init cfgN false OSMutex.fresh).2.handleSet = false ∧
      (OSMutex.init cfgN false OSMutex.fresh).2.m_initialized = false) ∧
    (Counter.init cfgN true ((Counter.init cfgN false (Counter.fresh 3)).2)).2.m_initialized
      = true := by
  have h := c9_failed_init_stays_unconfigured cfgN OSMutex.fresh rfl
    (Counter.fresh 3) (by decide) rfl (OSQueue.fresh Nat 4) (by decide) rfl
    (OSTimer.fresh (some 1) (some "t") false none) rfl rfl rfl
    (OSTask.fresh (some 1) (some "m") none 0 2 2048) rfl rfl (by decide) rfl
  exact ⟨h.1, h.2.2.2.2.2.2.1⟩

/-- C10: with assertions compiled out, every `Ready`-requiring operation —
`Counter` take/give/reset, `OSQueue` send/receive/peek/fflush,
`OSMutex` lock/unlock, `OSTimer` start/stop/restart, `OSTask`
stop/start/emitSignal — invoked before a successful `init()` returns `false`
immediately, makes no kernel call (empty trace) and leaves the object
unchanged. -/
theorem c10_ops_before_init_fail
    (cfg : Cfg) (inIsr wake wake1 wake2 : Bool) (wakes : Nat → Bool) (t ms : Nat) (v : Nat)
    (sm : OSMutex) (hmx : sm.m_initialized = false)
    (sc : Counter) (hc : sc.m_initialized = false)
    (sq : OSQueue Nat) (hq : sq.m_initialized = false)
    (stm : OSTimer) (ht : stm.m_initialized = false)
    (sk : OSTask) (hk : sk.m_initialized = false)
    (ha : cfg.asserts = false) :
    Counter.take cfg inIsr wake t sc = (some false, sc, []) ∧
    Counter.give cfg inIsr wake sc = (some false, sc, []) ∧
    Counter.reset cfg inIsr wakes sc = (some false, sc, []) ∧
    OSQueue.send cfg inIsr wake v t sq = (some false, sq, []) ∧
    OSQueue.receive cfg inIsr wake t sq = (some (false, none), sq, []) ∧
    OSQueue.peek cfg inIsr t sq = (some (false, none), sq, []) ∧
    OSQueue.fflush cfg sq = (some false, sq, []) ∧
    OSMutex.lock cfg inIsr t sm = (some false, sm, []) ∧
    OSMutex.unlock cfg sm = (some false, sm, []) ∧
    OSTimer.start cfg inIsr wake1 wake2 ms stm = (some false, stm, []) ∧
    OSTimer.stop cfg inIsr wake stm = (some false, stm, []) ∧
    OSTimer.restart cfg inIsr wake ms stm = (some false, stm, []) ∧
    OSTask.stop cfg sk = (some false, sk, []) ∧
    OSTask.start cfg inIsr wake sk = (some false, sk, []) ∧
    OSTask.emitSignal cfg inIsr wake sk = (some false, sk, []) := by
  simp [Counter.take, Counter.give, Counter.reset, OSQueue.send, OSQueue.receive,
    OSQueue.peek, OSQueue.fflush, OSMutex.lock, OSMutex.unlock, OSTimer.start,
    OSTimer.stop, OSTimer.restart, OSTask.stop, OSTask.start, OSTask.emitSignal,
    hmx, hc, hq, ht, hk, ha]

/-- C10 witness: the theorem at concrete uninitialized objects. -/
theorem c10_ops_before_init_fail_witness :
    Counter.take cfgN false false 0 (Counter.fresh 3) = (some false, Counter.fresh 3, []) ∧
    OSMutex.lock cfgN true 100 OSMutex.fresh = (some false, OSMutex.fresh, []) := by
  have h := c10_ops_before_init_fail cfgN false false false false (fun _ => false) 0 0 7
    OSMutex.fresh rfl (Counter.fresh 3) rfl (OSQueue.fresh Nat 4) rfl
    (OSTimer.fresh (some 1) (some "t") false none) rfl
    (OSTask.fresh (some 1) (some "m") none 0 2 2048) rfl rfl
  refine ⟨h.1, ?_⟩
  have h2 := c10_ops_before_init_fail cfgN true false false false (fun _ => false) 100 0 7
    OSMutex.fresh rfl (Counter.fresh 3) rfl (OSQueue.fresh Nat 4) rfl
    (OSTimer.fresh (some 1) (some "t") false none) rfl
    (OSTask.fresh (some 1) (some "m") none 0 2 2048) rfl rfl
  exact h2.2.2.2.2.2.2.2.1

/-- C2: every operation dispatched through `execIsrFunc`, invoked in interrupt
context on an initialized object, issues the deferred reschedule request
exactly once when the ISR-safe kernel call(s) report a woken higher-priority
task and never otherwise — `OSTimer::start` makes two kernel calls against one
status and still yields at most once — and in no case more than once. -/
theorem c2_isr_reschedule_exactly_once
    (cfg : Cfg) (wake wake1 wake2 : Bool) (wakes : Nat → Bool) (t ms : Nat) (v : Nat)
    (sc : Counter) (hc1 : sc.handleSet = true) (hc2 : sc.m_initialized = true)
    (sq : OSQueue Nat) (hq1 : sq.handleSet = true) (hq2 : sq.m_initialized = true)
    (sti : OSTimer) (ht1 : sti.handleSet = true) (ht2 : sti.m_initialized = true)
    (sk : OSTask) (hk1 : sk.handleSet = true) (hk2 : sk.m_initialized = true)
    (hs : cfg.schedRunning = true) :
    (sc.sem.count ≠ 0 →
      yieldCount (Counter.take cfg true wake t sc).2.2 = if wake then 1 else 0) ∧
    (sc.sem.count < sc.sem.maxCount →
      yieldCount (Counter.give cfg true wake sc).2.2 = if wake then 1 else 0) ∧
    (sq.q.items.length < sq.q.cap →
      yieldCount (OSQueue.send cfg true wake v t sq).2.2 = if wake then 1 else 0) ∧
    (sq.q.items ≠ [] →
      yieldCount (OSQueue.receive cfg true wake t sq).2.2 = if wake then 1 else 0) ∧
    yieldCount (OSQueue.peek cfg true t sq).2.2 = 0 ∧
    yieldCount (OSTimer.start cfg true wake1 wake2 ms sti).2.2 =
      (if wake1 || wake2 then 1 else 0) ∧
    yieldCount (OSTimer.stop cfg true wake sti).2.2 = (if wake then 1 else 0) ∧
    yieldCount (OSTimer.restart cfg true wake ms sti).2.2 = (if wake then 1 else 0) ∧
    yieldCount (OSTask.start cfg true wake sk).2.2 = (if wake then 1 else 0) ∧
    yieldCount (OSTask.emitSignal cfg true wake sk).2.2 = (if wake then 1 else 0) ∧
    yieldCount (Counter.reset cfg true wakes sc).2.2 =
      (if anyWake wakes 0 sc.sem.count then 1 else 0) ∧
    yieldCount (Counter.take cfg true wake t sc).2.2 ≤ 1 ∧
    yieldCount (Counter.give cfg true wake sc).2.2 ≤ 1 ∧
    yieldCount (OSQueue.send cfg true wake v t sq).2.2 ≤ 1 ∧
    yieldCount (OSQueue.receive cfg true wake t sq).2.2 ≤ 1 ∧
    yieldCount (Counter.reset cfg true wakes sc).2.2 ≤ 1 := by
  refine ⟨?_, ?_, ?_, ?_, ?_, ?_, ?_, ?_, ?_, ?_, ?_, ?_, ?_, ?_, ?_, ?_⟩
  · intro h0
    have hb : (sc.sem.count == 0) = false := by simpa using h0
    rw [counterTake_isr_trace cfg wake t sc hc1 hc2 hs,
      yieldCount_ev_yieldFunc _ (by decide), hb]
    simp
  · intro h0
    have hb : decide (sc.sem.count < sc.sem.maxCount) = true := by simpa using h0
    rw [counterGive_isr_trace cfg wake sc hc1 hc2 hs,
      yieldCount_ev_yieldFunc _ (by decide), hb]
    simp
  · intro h0
    have hb : decide (sq.q.items.length < sq.q.cap) = true := by simpa using h0
    rw [queueSend_isr_trace cfg wake v t sq hq1 hq2 hs,
      yieldCount_ev_yieldFunc _ (by decide), hb]
    simp
  · intro h0
    have hb : sq.q.items.isEmpty = false := by
      cases hqq : sq.q.items
      · exact absurd hqq h0
      · rfl
    rw [queueReceive_isr_trace cfg wake t sq hq1 hq2 hs,
      yieldCount_ev_yieldFunc _ (by decide), hb]
    simp
  · rw [queuePeek_isr_trace cfg t sq hq1 hq2 hs]
    rfl
  · rw [timerStart_isr_trace cfg wake1 wake2 ms sti ht1 ht2 hs,
      yieldCount_cons _ (by decide), yieldCount_ev_yieldFunc _ (by decide)]
  · rw [timerStop_isr_trace cfg wake sti ht1 ht2 hs,
      yieldCount_ev_yieldFunc _ (by decide)]
  · rw [timerRestart_isr_trace cfg wake ms sti ht1 ht2 hs,
      yieldCount_ev_yieldFunc _ (by decide)]
  · rw [taskStart_isr_trace cfg wake sk hk1 hk2 hs,
      yieldCount_ev_yieldFunc _ (by decide)]
  · rw [taskEmitSignal_isr_trace cfg wake sk hk1 hk2 hs,
      yieldCount_ev_yieldFunc _ (by decide)]
  · rw [counterReset_isr_trace cfg wakes sc hc1 hc2 hs, yieldCount_append,
      yieldCount_replicate _ _ (by decide), yieldCount_yieldFunc]
    simp
  · rw [counterTake_isr_trace cfg wake t sc hc1 hc2 hs,
      yieldCount_ev_yieldFunc _ (by decide)]
    split <;> simp
  · rw [counterGive_isr_trace cfg wake sc hc1 hc2 hs,
      yieldCount_ev_yieldFunc _ (by decide)]
    split <;> simp
  · rw [queueSend_isr_trace cfg wake v t sq hq1 hq2 hs,
      yieldCount_ev_yieldFunc _ (by decide)]
    split <;> simp
  · rw [queueReceive_isr_trace cfg wake t sq hq1 hq2 hs,
      yieldCount_ev_yieldFunc _ (by decide)]
    split <;> simp
  · rw [counterReset_isr_trace cfg wakes sc hc1 hc2 hs, yieldCount_append,
      yieldCount_replicate _ _ (by decide), yieldCount_yieldFunc]
    split <;> simp

/-- C2 witness: the theorem at concrete inputs — a counter take from an
interrupt that wakes a higher-priority task yields exactly once; a timer
start from an interrupt whose two kernel calls both report a woken task still
yields exactly once. -/
theorem c2_isr_reschedule_exactly_once_witness :
    yieldCount (Counter.take cfgA true true 0 (counterReady 1 3)).2.2 = 1 ∧
    yieldCount (OSTimer.start cfgA true true true 10 timerReady).2.2 = 1 ∧
    yieldCount (OSTask.emitSignal cfgA true false taskReady).2.2 = 0 := by
  have h := c2_isr_reschedule_exactly_once cfgA true true true (fun _ => false) 0 10 7
    (counterReady 1 3) rfl rfl (queueReady 2 [5]) rfl rfl timerReady rfl rfl
    taskReady rfl rfl rfl
  have h2 := c2_isr_reschedule_exactly_once cfgA false false false (fun _ => false) 0 10 7
    (counterReady 1 3) rfl rfl (queueReady 2 [5]) rfl rfl timerReady rfl rfl
    taskReady rfl rfl rfl
  exact ⟨h.1 (by decide), h.2.2.2.2.2.1, h2.2.2.2.2.2.2.2.2.2.1⟩

/-- C3: every operation dispatched through `execIsrFunc`, on an initialized
object, executes only ISR-safe kernel calls when the context classifier
reports interrupt context — and an ISR-safe call is never wait-capable, so no
wait-capable call with a nonzero timeout is made — and only task-context
kernel calls when it reports task context. -/
theorem c3_dispatch_selects_context_path
    (cfg : Cfg) (wake wake1 wake2 : Bool) (wakes : Nat → Bool) (t ms : Nat) (v : Nat)
    (sc : Counter) (hc1 : sc.handleSet = true) (hc2 : sc.m_initialized = true)
    (sq : OSQueue Nat) (hq1 : sq.handleSet = true) (hq2 : sq.m_initialized = true)
    (sti : OSTimer) (ht1 : sti.handleSet = true) (ht2 : sti.m_initialized = true)
    (sk : OSTask) (hk1 : sk.handleSet = true) (hk2 : sk.m_initialized = true)
    (hs : cfg.schedRunning = true) :
    IsrOnly (Counter.take cfg true wake t sc).2.2 ∧
    IsrOnly (Counter.give cfg true wake sc).2.2 ∧
    IsrOnly (Counter.reset cfg true wakes sc).2.2 ∧
    IsrOnly (OSQueue.send cfg true wake v t sq).2.2 ∧
    IsrOnly (OSQueue.receive cfg true wake t sq).2.2 ∧
    IsrOnly (OSQueue.peek cfg true t sq).2.2 ∧
    IsrOnly (OSTimer.start cfg true wake1 wake2 ms sti).2.2 ∧
    IsrOnly (OSTimer.stop cfg true wake sti).2.2 ∧
    IsrOnly (OSTimer.restart cfg true wake ms sti).2.2 ∧
    IsrOnly (OSTask.start cfg true wake sk).2.2 ∧
    IsrOnly (OSTask.emitSignal cfg true wake sk).2.2 ∧
    (∀ tr : List Event, IsrOnly tr → NoBlockingWait tr) ∧
    TaskOnly (Counter.take cfg false wake t sc).2.2 ∧
    TaskOnly (Counter.give cfg false wake sc).2.2 ∧
    TaskOnly (Counter.reset cfg false wakes sc).2.2 ∧
    TaskOnly (OSQueue.send cfg false wake v t sq).2.2 ∧
    TaskOnly (OSQueue.receive cfg false wake t sq).2.2 ∧
    TaskOnly (OSQueue.peek cfg false t sq).2.2 ∧
    TaskOnly (OSTimer.start cfg false wake1 wake2 ms sti).2.2 ∧
    TaskOnly (OSTimer.stop cfg false wake sti).2.2 ∧
    TaskOnly (OSTimer.restart cfg false wake ms sti).2.2 ∧
    TaskOnly (OSTask.start cfg false wake sk).2.2 ∧
    TaskOnly (OSTask.emitSignal cfg false wake sk).2.2 := by
  refine ⟨?_, ?_, ?_, ?_, ?_, ?_, ?_, ?_, ?_, ?_, ?_, ?_, ?_, ?_, ?_, ?_, ?_, ?_,
    ?_, ?_, ?_, ?_, ?_⟩
  · rw [counterTake_isr_trace cfg wake t sc hc1 hc2 hs]
    exact IsrOnly_cons _ (by rfl) _ (IsrOnly_yieldFunc _)
  · rw [counterGive_isr_trace cfg wake sc hc1 hc2 hs]
    exact IsrOnly_cons _ (by rfl) _ (IsrOnly_yieldFunc _)
  · rw [counterReset_isr_trace cfg wakes sc hc1 hc2 hs]
    exact IsrOnly_append _ _ (IsrOnly_replicate _ _ (by rfl)) (IsrOnly_yieldFunc _)
  · rw [queueSend_isr_trace cfg wake v t sq hq1 hq2 hs]
    exact IsrOnly_cons _ (by rfl) _ (IsrOnly_yieldFunc _)
  · rw [queueReceive_isr_trace cfg wake t sq hq1 hq2 hs]
    exact IsrOnly_cons _ (by rfl) _ (IsrOnly_yieldFunc _)
  · rw [queuePeek_isr_trace cfg t sq hq1 hq2 hs]
    exact IsrOnly_cons _ (by rfl) _ IsrOnly_nil
  · rw [timerStart_isr_trace cfg wake1 wake2 ms sti ht1 ht2 hs]
    exact IsrOnly_cons _ (by rfl) _ (IsrOnly_cons _ (by rfl) _ (IsrOnly_yieldFunc _))
  · rw [timerStop_isr_trace cfg wake sti ht1 ht2 hs]
    exact IsrOnly_cons _ (by rfl) _ (IsrOnly_yieldFunc _)
  · rw [timerRestart_isr_trace cfg wake ms sti ht1 ht2 hs]
    exact IsrOnly_cons _ (by rfl) _ (IsrOnly_yieldFunc _)
  · rw [taskStart_isr_trace cfg wake sk hk1 hk2 hs]
    exact IsrOnly_cons _ (by rfl) _ (IsrOnly_yieldFunc _)
  · rw [taskEmitSignal_isr_trace cfg wake sk hk1 hk2 hs]
    exact IsrOnly_cons _ (by rfl) _ (IsrOnly_yieldFunc _)
  · exact fun tr h => IsrOnly.noBlockingWait tr h
  · rw [counterTake_task_trace cfg wake t sc hc1 hc2 hs]
    exact TaskOnly_cons _ (by rfl) _ TaskOnly_nil
  · rw [counterGive_task_trace cfg wake sc hc1 hc2 hs]
    exact TaskOnly_cons _ (by rfl) _ TaskOnly_nil
  · rw [counterReset_task_run cfg wakes sc hc1 hc2 hs]
    exact TaskOnly_replicate _ _ (by rfl)
  · rw [queueSend_task_run cfg wake v t sq hq1 hq2 hs]
    exact TaskOnly_cons _ (by rfl) _ TaskOnly_nil
  · rw [queueReceive_task_run cfg wake t sq hq1 hq2 hs]
    exact TaskOnly_cons _ (by rfl) _ TaskOnly_nil
  · rw [queuePeek_task_trace cfg t sq hq1 hq2 hs]
    exact TaskOnly_cons _ (by rfl) _ TaskOnly_nil
  · rw [timerStart_task_trace cfg wake1 wake2 ms sti ht1 ht2 hs]
    exact TaskOnly_cons _ (by rfl) _ (TaskOnly_cons _ (by rfl) _ TaskOnly_nil)
  · rw [timerStop_task_trace cfg wake sti ht1 ht2 hs]
    exact TaskOnly_cons _ (by rfl) _ TaskOnly_nil
  · rw [timerRestart_task_trace cfg wake ms sti ht1 ht2 hs]
    exact TaskOnly_cons _ (by rfl) _ TaskOnly_nil
  · rw [taskStart_task_trace cfg wake sk hk1 hk2 hs]
    exact TaskOnly_cons _ (by rfl) _ TaskOnly_nil
  · rw [taskEmitSignal_task_trace cfg wake sk hk1 hk2 hs]
    exact TaskOnly_cons _ (by rfl) _ TaskOnly_nil

/-- C3 witness: the theorem at concrete inputs — an interrupt-context counter
take's trace is ISR-only, and a task-context take's trace is task-only. -/
theorem c3_dispatch_selects_context_path_witness :
    IsrOnly (Counter.take cfgA true true 0 (counterReady 1 3)).2.2 ∧
    TaskOnly (Counter.take cfgA false true 0 (counterReady 1 3)).2.2 := by
  have h := c3_dispatch_selects_context_path cfgA true true true (fun _ => false) 0 10 7
    (counterReady 1 3) rfl rfl (queueReady 2 [5]) rfl rfl timerReady rfl rfl
    taskReady rfl rfl rfl
  exact ⟨h.1, h.2.2.2.2.2.2.2.2.2.2.2.2.1⟩

/-- C8: `Counter::reset()` on an initialized counter in task context returns
`true`, drains every available count (the kernel count is 0 afterwards, so a
subsequent zero-wait `take` fails), and its drain loop terminates with
exactly the counter's current count body iterations (the drain-loop equation,
third conjunct, returns `s.sem.count` as the iteration count). -/
theorem c8_counter_reset_drains
    (cfg : Cfg) (wakes : Nat → Bool) (wake : Bool) (s : Counter)
    (h1 : s.handleSet = true) (h2 : s.m_initialized = true) (hs : cfg.schedRunning = true) :
    (Counter.reset cfg false wakes s).1 = some true ∧
    (Counter.reset cfg false wakes s).2.1.sem.count = 0 ∧
    drainLoopTask (s.sem.count + 1) s.sem =
      some ({ count := 0, maxCount := s.sem.maxCount }, s.sem.count,
            List.replicate (s.sem.count + 1) (Event.semTake 0)) ∧
    (Counter.take cfg false wake 0 ((Counter.reset cfg false wakes s).2.1)).1 =
      some false := by
  have hrun := counterReset_task_run cfg wakes s h1 h2 hs
  refine ⟨by rw [hrun], by rw [hrun],
    drainLoopTask_run_eta s.sem (s.sem.count + 1) (Nat.lt_succ_self _), ?_⟩
  rw [hrun]
  simp [Counter.take, h1, h2, hs, execIsrFunc, SemK.takeK]

/-- C8 witness: the theorem on a counter holding three counts. -/
theorem c8_counter_reset_drains_witness :
    (Counter.reset cfgA false (fun _ => false) (counterReady 3 5)).1 = some true ∧
    (Counter.reset cfgA false (fun _ => false) (counterReady 3 5)).2.1.sem.count = 0 ∧
    (Counter.take cfgA false false 0
      ((Counter.reset cfgA false (fun _ => false) (counterReady 3 5)).2.1)).1 =
      some false := by
  have h := c8_counter_reset_drains cfgA (fun _ => false) false (counterReady 3 5)
    rfl rfl rfl
  exact ⟨h.1, h.2.1, h.2.2.2⟩

theorem sendSeq_cons {T : Type} (cfg : Cfg) (t : Nat) (v : T) (vs : List T)
    (s : OSQueue T) :
    sendSeq cfg t (v :: vs) s =
      ((OSQueue.send cfg false false v t s).1 ::
        (sendSeq cfg t vs (OSQueue.send cfg false false v t s).2.1).1,
       (sendSeq cfg t vs (OSQueue.send cfg false false v t s).2.1).2) := rfl

theorem sendSeq_fill {T : Type} (cfg : Cfg) (t : Nat) (hs : cfg.schedRunning = true) :
    ∀ (vals : List T) (s : OSQueue T), s.handleSet = true → s.m_initialized = true →
      s.q.items.length + vals.length ≤ s.q.cap →
      sendSeq cfg t vals s =
        (List.replicate vals.length (some true),
         { s with q := { cap := s.q.cap, items := s.q.items ++ vals } }) := by
  intro vals
  induction vals with
  | nil =>
    intro s h1 h2 _
    simp [sendSeq]
  | cons v vs ih =>
    intro s h1 h2 hlen
    have hlt : s.q.items.length < s.q.cap := by
      simp [List.length_cons] at hlen
      omega
    have hsend := queueSend_task_run cfg false v t s h1 h2 hs
    have hbk : s.q.sendK v = (true, { cap := s.q.cap, items := s.q.items ++ [v] }) := by
      simp [QueueK.sendK, hlt]
    have hlen2 : ({ s with q := { cap := s.q.cap, items := s.q.items ++ [v] } }
        : OSQueue T).q.items.length + vs.length ≤
        ({ s with q := { cap := s.q.cap, items := s.q.items ++ [v] } } : OSQueue T).q.cap := by
      simp [List.length_append]
      simp [List.length_cons] at hlen
      omega
    have ih2 := ih ({ s with q := { cap := s.q.cap, items := s.q.items ++ [v] } }) h1 h2 hlen2
    rw [sendSeq_cons, hsend, hbk]
    simp only at ih2 ⊢
    rw [ih2]
    simp [List.replicate, List.append_assoc]

theorem queueSend_full_fails {T : Type} (cfg : Cfg) (v : T) (t : Nat) (s : OSQueue T)
    (h1 : s.handleSet = true) (h2 : s.m_initialized = true) (hs : cfg.schedRunning = true)
    (hfull : s.q.cap ≤ s.q.items.length) :
    (OSQueue.send cfg false false v t s).1 = some false := by
  rw [queueSend_task_run cfg false v t s h1 h2 hs]
  simp [QueueK.sendK, Nat.not_lt.mpr hfull]

theorem queueSend_space_ok {T : Type} (cfg : Cfg) (v : T) (t : Nat) (s : OSQueue T)
    (h1 : s.handleSet = true) (h2 : s.m_initialized = true) (hs : cfg.schedRunning = true)
    (hspace : s.q.items.length < s.q.cap) :
    (OSQueue.send cfg false false v t s).1 = some true := by
  rw [queueSend_task_run cfg false v t s h1 h2 hs]
  simp [QueueK.sendK, hspace]

theorem queueReceive_step {T : Type} (cfg : Cfg) (t : Nat) (s : OSQueue T)
    (x : T) (rest : List T)
    (h1 : s.handleSet = true) (h2 : s.m_initialized = true) (hs : cfg.schedRunning = true)
    (hi : s.q.items = x :: rest) :
    (OSQueue.receive cfg false false t s).2.1 =
      { s with q := { cap := s.q.cap, items := rest } } := by
  rw [queueReceive_task_run cfg false t s h1 h2 hs]
  simp [QueueK.receiveK, hi]

/-- C6: a freshly initialized queue of positive capacity `c` accepts `c`
zero-wait sends (all return `true`), rejects the `(c+1)`-th zero-wait send,
and after one `receive` the next zero-wait send succeeds again. -/
theorem c6_queue_capacity_boundary
    (cfg : Cfg) (hs : cfg.schedRunning = true) (c : Nat) (hc : 0 < c)
    (vals : List Nat) (hlen : vals.length = c) (v w : Nat) :
    (OSQueue.init cfg true (OSQueue.fresh Nat c)).1 = some true ∧
    (sendSeq cfg 0 vals ((OSQueue.init cfg true (OSQueue.fresh Nat c)).2)).1 =
      List.replicate c (some true) ∧
    (OSQueue.send cfg false false v 0
      ((sendSeq cfg 0 vals ((OSQueue.init cfg true (OSQueue.fresh Nat c)).2)).2)).1 =
      some false ∧
    (OSQueue.send cfg false false w 0
      ((OSQueue.receive cfg false false 0
        ((sendSeq cfg 0 vals ((OSQueue.init cfg true (OSQueue.fresh Nat c)).2)).2)).2.1)).1 =
      some true := by
  have hcb : (c == 0) = false := by simpa using Nat.pos_iff_ne_zero.mp hc
  have hinit : OSQueue.init cfg true (OSQueue.fresh Nat c) =
      (some true, { m_xQueueSize := c, handleSet := true,
                    q := { cap := c, items := [] }, m_initialized := true }) := by
    by_cases ha : cfg.asserts <;> simp [OSQueue.init, OSQueue.fresh, hcb, ha]
  have hfill := sendSeq_fill cfg 0 hs vals
    ({ m_xQueueSize := c, handleSet := true,
       q := { cap := c, items := [] }, m_initialized := true }) rfl rfl
    (by simp [hlen])
  simp only [List.nil_append] at hfill
  obtain ⟨x, rest, hv⟩ : ∃ x rest, vals = x :: rest := by
    cases hvv : vals with
    | nil => rw [hvv] at hlen; simp at hlen; omega
    | cons a l => exact ⟨a, l, rfl⟩
  have hrest : rest.length = c - 1 := by
    rw [hv] at hlen
    simp at hlen
    omega
  have hfull := queueSend_full_fails cfg v 0
    ({ m_xQueueSize := c, handleSet := true,
       q := { cap := c, items := vals }, m_initialized := true }) rfl rfl hs
    (by simp [hlen])
  have hstep := queueReceive_step cfg 0
    ({ m_xQueueSize := c, handleSet := true,
       q := { cap := c, items := vals }, m_initialized := true }) x rest rfl rfl hs
    (by simpa using hv)
  have hok := queueSend_space_ok cfg w 0
    ({ m_xQueueSize := c, handleSet := true,
       q := { cap := c, items := rest }, m_initialized := true }) rfl rfl hs
    (by simp [hrest]; omega)
  refine ⟨by simp [hinit], by simp [hinit, hfill, hlen], ?_, ?_⟩
  · simpa [hinit, hfill] using hfull
  · simpa [hinit, hfill, hstep] using hok

/-- C6 witness: the theorem on a queue of capacity two. -/
theorem c6_queue_capacity_boundary_witness :
    (OSQueue.init cfgA true (OSQueue.fresh Nat 2)).1 = some true ∧
    (OSQueue.send cfgA false false 9 0
      ((sendSeq cfgA 0 [5, 7] ((OSQueue.init cfgA true (OSQueue.fresh Nat 2)).2)).2)).1 =
      some false ∧
    (OSQueue.send cfgA false false 4 0
      ((OSQueue.receive cfgA false false 0
        ((sendSeq cfgA 0 [5, 7] ((OSQueue.init cfgA true (OSQueue.fresh Nat 2)).2)).2)).2.1)).1 =
      some true := by
  have h := c6_queue_capacity_boundary cfgA rfl 2 (by decide) [5, 7] rfl 9 4
  exact ⟨h.1, h.2.2.1, h.2.2.2⟩

end FreeRTOSHelper
